import Mathlib

/-!
Verification development for the `iot2mqtt` message-processing pipeline.

This file gives a shallow embedding, in Lean 4, of the data model and the
operations of the `iot2mqtt` Python repository (modules `dev`, `abstract`,
`messenger`, `processor`, `encoder`, `central`), and proves or refutes the
stated properties of that code.

Modelling conventions:
* Python floats are modelled as rationals (`ℚ`).
* JSON values (the result of `json.loads`) are modelled by the inductive
  type `JsonVal`; Python dicts are association lists in insertion order.
* Fallible Python code (code that can raise) is modelled with
  `Except PyError`; `PyError` distinguishes the exception classes that the
  source discriminates on (`TypeError` versus everything else, pydantic
  `ValidationError`, the repo's own `DecodingException`).
* Message `id` fields (`uuid4`) and timestamps are irrelevant to every
  property proved here and are omitted from the `Message` structure.
* Logging calls are no-ops and are not modelled.
-/

set_option maxHeartbeats 1000000

namespace I2M

/-- JSON-like runtime values: the results of Python's `json.loads` and the
field values held in pydantic model dumps. Numbers are rationals. -/
inductive JsonVal where
  | null
  | str (s : String)
  | num (q : ℚ)
  | bool (b : Bool)
  | obj (fields : List (String × JsonVal))
  | arr (elems : List JsonVal)

/-- A Python dict with string keys, in insertion order. -/
abbrev Dict := List (String × JsonVal)

/-- First binding of key `k` in dict `d` (Python's `d.get(k)`). -/
def Dict.get (d : Dict) (k : String) : Option JsonVal :=
  match d.find? (fun kv => kv.1 == k) with
  | some kv => some kv.2
  | none => none

/-- Helper for `pySplitChar`. -/
def splitCharAux (sep : Char) : List Char → List Char → List String
  | [], acc => [String.mk acc.reverse]
  | c :: rest, acc =>
      if c = sep then String.mk acc.reverse :: splitCharAux sep rest []
      else splitCharAux sep rest (c :: acc)

/-- Python `s.split(sep)` for a one-character separator (the only form
the source uses: `"/"` and `","`). `"".split(sep) = [""]`. -/
def pySplitChar (sep : Char) (s : String) : List String :=
  splitCharAux sep s.data []

/-- Python `c in s` for a one-character needle (`"*" in device_names`). -/
def strContainsChar (s : String) (c : Char) : Bool :=
  s.data.any (fun x => x = c)

/-- `dev.Protocol`: communication protocols (enum from `dev.py`). -/
inductive Protocol where
  | DEFAULT | HOMIE | RING | SHELLY | TASMOTA | Z2M | Z2T
  deriving Repr, DecidableEq

/-- `dev.Model`: recognised device models (enum from `dev.py`). -/
inductive Model where
  | MIFLORA | NEO_ALARM | RING_CAMERA | SHELLY_PLUGS | SHELLY_UNI
  | SRTS_A01 | TUYA_SOIL | SN_AIRSENSOR | SN_BUTTON | SN_MOTION
  | SN_MINI | SN_MINI_L2 | SN_SMART_PLUG | SN_ZBBRIDGE | NONE | UNKNOWN
  deriving Repr, DecidableEq

/-- The wire label of each `Model` enum member (its Python `value`). -/
def Model.value : Model → String
  | .MIFLORA => "Miflora"
  | .NEO_ALARM => "NAS-AB02B2"
  | .RING_CAMERA => "RingCamera"
  | .SHELLY_PLUGS => "Shelly Plug S"
  | .SHELLY_UNI => "Shelly Uni"
  | .SRTS_A01 => "SRTS-A01"
  | .TUYA_SOIL => "TS0601_soil"
  | .SN_AIRSENSOR => "SNZB-02"
  | .SN_BUTTON => "SNZB-01"
  | .SN_MOTION => "SNZB-03"
  | .SN_MINI => "ZBMINI-L"
  | .SN_MINI_L2 => "ZBMINIL2"
  | .SN_SMART_PLUG => "S26R2ZB"
  | .SN_ZBBRIDGE => "Sonoff ZbBridge"
  | .NONE => "None"
  | .UNKNOWN => "Unknown"

/-- The declaration-order list of all `Model` members (iteration order of
`for model in Model` in Python). -/
def Model.members : List Model :=
  [.MIFLORA, .NEO_ALARM, .RING_CAMERA, .SHELLY_PLUGS, .SHELLY_UNI,
   .SRTS_A01, .TUYA_SOIL, .SN_AIRSENSOR, .SN_BUTTON, .SN_MOTION,
   .SN_MINI, .SN_MINI_L2, .SN_SMART_PLUG, .SN_ZBBRIDGE, .NONE, .UNKNOWN]

/-- `dev.Model.from_str`: `None` maps to `Model.NONE`; a label equal to some
member's value maps to that member; anything else maps to `Model.UNKNOWN`.
The argument is the raw JSON value found at `definition.model` (so a
non-string label compares unequal to every member value, as in Python). -/
def Model.fromStr (label : Option JsonVal) : Model :=
  match label with
  | none => Model.NONE
  | some .null => Model.NONE
  | some (.str s) =>
      match Model.members.find? (fun m => m.value == s) with
      | some m => m
      | none => Model.UNKNOWN
  | some _ => Model.UNKNOWN

/-- `dev.Device`: a discovered device. -/
structure Device where
  name : String
  protocol : Protocol
  address : Option String := none
  model : Option Model := none
  deriving Repr, DecidableEq

/-- `messenger.MessageType`. -/
inductive MessageType where
  | DISCO | AVAIL | STATE
  deriving Repr, DecidableEq

/-- The payload of `messenger.Item.data`: `Union[Dict, str, List[Dict]]`. -/
inductive RawData where
  | dict (d : Dict)
  | str (s : String)
  | listDict (l : List Dict)

/-- `messenger.Item`: raw data plus the optional TASMOTA sub-topic tag. -/
structure Item where
  data : RawData
  tag : Option String := none

/-- Python exception classes that the source code discriminates on.
`decodingError` is the repo's `DecodingException`; `validationError` is
pydantic's `ValidationError`; the rest are builtins raised by the code. -/
inductive PyError where
  | typeError (msg : String)
  | attributeError (msg : String)
  | decodingError (msg : String)
  | validationError (msg : String)
  | notImplementedError (msg : String)
  | indexError (msg : String)
  | keyError (msg : String)
  deriving Repr, DecidableEq

/-- Whether an exception is a Python `TypeError` (the only class caught by
`Dispatcher._run`). -/
def PyError.isTypeError : PyError → Bool
  | .typeError _ => true
  | _ => false

/-! ## `abstract.py`: device-state variants

Each pydantic model becomes a structure whose `Optional` fields are `Option`
values. Python floats are `ℚ`, ints are `Int`. `last_seen` (a `datetime`)
is kept opaque: the accepted wire value (a JSON string or number) is stored
as is. All states relevant to the claims leave `last_seen` unset. -/

/-- `abstract.Availability`. -/
structure Availability where
  is_online : Bool
  deriving Repr, DecidableEq

/-- `abstract.Registry`: the refined payload of a discovery message. -/
structure Registry where
  device_names : List String := []
  deriving Repr, DecidableEq

/-- `abstract.AirSensor`. -/
structure AirSensor where
  last_seen : Option JsonVal := none
  humidity : Option ℚ := none
  temperature : Option ℚ := none

/-- `abstract.Switch`. In Python `power` is restricted to the literals
`"ON"`/`"OFF"` (checked at parse time) and is a required field with wire
aliases `power`, `state`, `POWER`. -/
structure Switch where
  last_seen : Option JsonVal := none
  power_on_behavior : Option String := none
  power : Option String := none

/-- `abstract.SWITCH_ON`. -/
def SWITCH_ON : Switch := { power := some "ON" }

/-- `abstract.SWITCH_OFF`. -/
def SWITCH_OFF : Switch := { power := some "OFF" }

/-- `abstract.Switch2Channels`. -/
structure Switch2Channels where
  last_seen : Option JsonVal := none
  power1 : Option String := none
  power2 : Option String := none

/-- `abstract.Motion`. -/
structure Motion where
  last_seen : Option JsonVal := none
  occupancy : Option Bool := none
  tamper : Option Bool := none

/-- `abstract.Button`; `action` takes the `ButtonValues` literals
`"single"`, `"double"`, `"long"`. -/
structure Button where
  last_seen : Option JsonVal := none
  action : Option String := none

/-- `abstract.ADC`: `Range` is optional with default `None`; `voltage` is a
computed property (see `ADC.voltage`). -/
structure ADC where
  last_seen : Option JsonVal := none
  Range : Option ℚ := none

/-- `abstract.ADC.voltage`: the computed property `self.Range / 100`. When
`Range` is `None`, Python evaluates `None / 100` and raises `TypeError`. -/
def ADC.voltage (a : ADC) : Except PyError ℚ :=
  match a.Range with
  | some r => .ok (r / 100)
  | none => .error (.typeError "unsupported operand type(s) for /: 'NoneType' and 'int'")

/-- `abstract.SrtsA01` (thermostat), fields in declaration order. Numeric
range constraints (`confloat`) are enforced by the parser, not the
structure. -/
structure SrtsA01 where
  last_seen : Option JsonVal := none
  away_preset_temperature : Option ℚ := none
  battery : Option Int := none
  calibrated : Option Bool := none
  child_lock : Option Bool := none
  device_temperature : Option ℚ := none
  external_temperature_input : Option ℚ := none
  internal_heating_setpoint : Option ℚ := none
  linkquality : Option Int := none
  local_temperature : Option ℚ := none
  occupied_heating_setpoint : Option ℚ := none
  power_outage_count : Option Int := none
  preset : Option String := none
  schedule : Option Bool := none
  schedule_settings : Option String := none
  sensor : Option String := none
  setup : Option Bool := none
  system_mode : Option String := none
  update : Option Dict := none
  valve_alarm : Option Bool := none
  valve_detection : Option Bool := none
  voltage : Option Int := none
  window_detection : Option Bool := none
  window_open : Option Bool := none

/-- `abstract.Alarm`. -/
structure Alarm where
  last_seen : Option JsonVal := none
  alarm : Option Bool := none
  battery_low : Option Bool := none
  duration : Option Int := none
  melody : Option Int := none
  volume : Option String := none

/-- `abstract.DeviceState`: the sealed family of device-state variants. -/
inductive DeviceState where
  | airSensor (s : AirSensor)
  | switch (s : Switch)
  | switch2 (s : Switch2Channels)
  | motion (s : Motion)
  | button (s : Button)
  | adc (s : ADC)
  | srtsA01 (s : SrtsA01)
  | alarm (s : Alarm)

def optStr (o : Option String) : Option JsonVal := o.map .str
def optNum (o : Option ℚ) : Option JsonVal := o.map .num
def optInt (o : Option Int) : Option JsonVal := o.map (fun i => .num (i : ℚ))
def optBool (o : Option Bool) : Option JsonVal := o.map .bool
def optObj (o : Option Dict) : Option JsonVal := o.map .obj

/-- Keep the bindings whose value is present (pydantic `exclude_none`). -/
def dropNone (l : List (String × Option JsonVal)) : List (String × JsonVal) :=
  l.filterMap (fun kv => kv.2.map (fun v => (kv.1, v)))

/-- All (field, optional value) bindings of a state, in pydantic field
order (base-class field `last_seen` first). For `ADC` this covers only the
stored fields; the computed `voltage` is added by `modelDump`. -/
def DeviceState.fieldBindings : DeviceState → List (String × Option JsonVal)
  | .airSensor s =>
      [("last_seen", s.last_seen), ("humidity", optNum s.humidity),
       ("temperature", optNum s.temperature)]
  | .switch s =>
      [("last_seen", s.last_seen),
       ("power_on_behavior", optStr s.power_on_behavior),
       ("power", optStr s.power)]
  | .switch2 s =>
      [("last_seen", s.last_seen), ("power1", optStr s.power1),
       ("power2", optStr s.power2)]
  | .motion s =>
      [("last_seen", s.last_seen), ("occupancy", optBool s.occupancy),
       ("tamper", optBool s.tamper)]
  | .button s =>
      [("last_seen", s.last_seen), ("action", optStr s.action)]
  | .adc s =>
      [("last_seen", s.last_seen), ("Range", optNum s.Range)]
  | .srtsA01 s =>
      [("last_seen", s.last_seen),
       ("away_preset_temperature", optNum s.away_preset_temperature),
       ("battery", optInt s.battery),
       ("calibrated", optBool s.calibrated),
       ("child_lock", optBool s.child_lock),
       ("device_temperature", optNum s.device_temperature),
       ("external_temperature_input", optNum s.external_temperature_input),
       ("internal_heating_setpoint", optNum s.internal_heating_setpoint),
       ("linkquality", optInt s.linkquality),
       ("local_temperature", optNum s.local_temperature),
       ("occupied_heating_setpoint", optNum s.occupied_heating_setpoint),
       ("power_outage_count", optInt s.power_outage_count),
       ("preset", optStr s.preset),
       ("schedule", optBool s.schedule),
       ("schedule_settings", optStr s.schedule_settings),
       ("sensor", optStr s.sensor),
       ("setup", optBool s.setup),
       ("system_mode", optStr s.system_mode),
       ("update", optObj s.update),
       ("valve_alarm", optBool s.valve_alarm),
       ("valve_detection", optBool s.valve_detection),
       ("voltage", optInt s.voltage),
       ("window_detection", optBool s.window_detection),
       ("window_open", optBool s.window_open)]
  | .alarm s =>
      [("last_seen", s.last_seen), ("alarm", optBool s.alarm),
       ("battery_low", optBool s.battery_low),
       ("duration", optInt s.duration), ("melody", optInt s.melody),
       ("volume", optStr s.volume)]

/-- `state.model_dump(exclude_none=True)`: the non-`None` fields in field
order. For `ADC` the pydantic computed field `voltage` is also evaluated
and included; when `Range` is `None` that evaluation raises `TypeError`
(`None / 100`). -/
def DeviceState.modelDump : DeviceState → Except PyError (List (String × JsonVal))
  | .adc s =>
      match s.Range with
      | none => .error (.typeError "unsupported operand type(s) for /: 'NoneType' and 'int'")
      | some r =>
          .ok (dropNone [("last_seen", s.last_seen), ("Range", some (.num r)),
                         ("voltage", some (.num (r / 100)))])
  | s => .ok (dropNone s.fieldBindings)

/-! ## Pydantic parsing

`_target_class(**raw_data)` in `StateNormalizer.process` constructs a
pydantic model from a dict. The readers below model the relevant pydantic
validation rules: unknown keys are ignored; `AliasChoices` tries the
aliases in order and the first present key wins; `Literal` needs the exact
string; `confloat(gt, lt)` enforces strict bounds; `Optional` fields with
a default are omitted silently and accept an explicit `null`. Exotic lax
coercions (numeric strings to numbers, `"yes"` to `True`, ...) are not
exercised by this repository and are modelled as validation errors. -/

/-- First alias present in the dict wins (pydantic `AliasChoices`). -/
def getAliased (d : Dict) (aliases : List String) : Option JsonVal :=
  match aliases with
  | [] => none
  | a :: rest =>
      match Dict.get d a with
      | some v => some v
      | none => getAliased d rest

def readStr : JsonVal → Except PyError String
  | .str s => .ok s
  | _ => .error (.validationError "Input should be a valid string")

def readLiteral (allowed : List String) : JsonVal → Except PyError String
  | .str s =>
      if s ∈ allowed then .ok s
      else .error (.validationError "Input should be one of the permitted literals")
  | _ => .error (.validationError "Input should be a valid string")

def readFloat : JsonVal → Except PyError ℚ
  | .num q => .ok q
  | _ => .error (.validationError "Input should be a valid number")

/-- `confloat(gt=lo, lt=hi)`: a number strictly inside the open interval. -/
def readConFloat (lo hi : ℚ) : JsonVal → Except PyError ℚ
  | .num q =>
      if lo < q ∧ q < hi then .ok q
      else .error (.validationError "Input should be in the open interval")
  | _ => .error (.validationError "Input should be a valid number")

def readInt : JsonVal → Except PyError Int
  | .num q =>
      if q.den = 1 then .ok q.num
      else .error (.validationError "Input should be a valid integer")
  | _ => .error (.validationError "Input should be a valid integer")

def readBool : JsonVal → Except PyError Bool
  | .bool b => .ok b
  | _ => .error (.validationError "Input should be a valid boolean")

def readDictVal : JsonVal → Except PyError Dict
  | .obj d => .ok d
  | _ => .error (.validationError "Input should be a valid dictionary")

/-- `datetime` field: pydantic accepts an ISO string or a numeric
timestamp; the accepted wire value is stored opaquely. -/
def readDatetime : JsonVal → Except PyError JsonVal
  | .str s => .ok (.str s)
  | .num q => .ok (.num q)
  | _ => .error (.validationError "Input should be a valid datetime")

/-- An `Optional[...]` field with a default: absent key or explicit `null`
yields `none`; otherwise the reader applies. -/
def ofield (d : Dict) (aliases : List String) (reader : JsonVal → Except PyError α) :
    Except PyError (Option α) :=
  match getAliased d aliases with
  | none => .ok none
  | some .null => .ok none
  | some v => (reader v).map some

/-- A required `Optional[...]` field (no default, e.g. `Switch.power`):
the key must be present under some alias; an explicit `null` is allowed. -/
def rfield (d : Dict) (aliases : List String) (reader : JsonVal → Except PyError α) :
    Except PyError (Option α) :=
  match getAliased d aliases with
  | none => .error (.validationError "Field required")
  | some .null => .ok none
  | some v => (reader v).map some

/-- Parse `abstract.AirSensor` from a dict. -/
def parseAirSensor (d : Dict) : Except PyError AirSensor := do
  let ls ← ofield d ["last_seen", "Time"] readDatetime
  let hu ← ofield d ["humidity"] readFloat
  let te ← ofield d ["temperature"] readFloat
  .ok { last_seen := ls, humidity := hu, temperature := te }

/-- Parse `abstract.Switch` from a dict (`power` is required, aliases
`power`/`state`/`POWER`, literals `ON`/`OFF`). -/
def parseSwitch (d : Dict) : Except PyError Switch := do
  let ls ← ofield d ["last_seen", "Time"] readDatetime
  let pob ← ofield d ["power_on_behavior"] readStr
  let pw ← rfield d ["power", "state", "POWER"] (readLiteral ["ON", "OFF"])
  .ok { last_seen := ls, power_on_behavior := pob, power := pw }

/-- Parse `abstract.Switch2Channels` from a dict. -/
def parseSwitch2Channels (d : Dict) : Except PyError Switch2Channels := do
  let ls ← ofield d ["last_seen", "Time"] readDatetime
  let p1 ← ofield d ["power1", "POWER1"] (readLiteral ["ON", "OFF"])
  let p2 ← ofield d ["power2", "POWER2"] (readLiteral ["ON", "OFF"])
  .ok { last_seen := ls, power1 := p1, power2 := p2 }

/-- Parse `abstract.Motion` from a dict. -/
def parseMotion (d : Dict) : Except PyError Motion := do
  let ls ← ofield d ["last_seen", "Time"] readDatetime
  let oc ← ofield d ["occupancy"] readBool
  let ta ← ofield d ["tamper"] readBool
  .ok { last_seen := ls, occupancy := oc, tamper := ta }

/-- Parse `abstract.Button` from a dict (`action` takes the
`ButtonValues` literals). -/
def parseButton (d : Dict) : Except PyError Button := do
  let ls ← ofield d ["last_seen", "Time"] readDatetime
  let ac ← ofield d ["action"] (readLiteral ["single", "double", "long"])
  .ok { last_seen := ls, action := ac }

/-- Parse `abstract.SrtsA01` from a dict, enforcing the `confloat` and
`Literal` constraints of `abstract.py`. -/
def parseSrtsA01 (d : Dict) : Except PyError SrtsA01 := do
  let ls ← ofield d ["last_seen", "Time"] readDatetime
  let apt ← ofield d ["away_preset_temperature"] (readConFloat (-10) 35)
  let bat ← ofield d ["battery"] readInt
  let cal ← ofield d ["calibrated"] readBool
  let cl ← ofield d ["child_lock"] readBool
  let dt ← ofield d ["device_temperature"] readFloat
  let eti ← ofield d ["external_temperature_input"] (readConFloat 0 55)
  let ihs ← ofield d ["internal_heating_setpoint"] readFloat
  let lq ← ofield d ["linkquality"] readInt
  let lt ← ofield d ["local_temperature"] readFloat
  let ohs ← ofield d ["occupied_heating_setpoint"] (readConFloat 5 30)
  let poc ← ofield d ["power_outage_count"] readInt
  let pre ← ofield d ["preset"] (readLiteral ["manual", "away", "auto"])
  let sch ← ofield d ["schedule"] readBool
  let scs ← ofield d ["schedule_settings"] readStr
  let sen ← ofield d ["sensor"] (readLiteral ["internal", "external"])
  let stp ← ofield d ["setup"] readBool
  let sm ← ofield d ["system_mode"] (readLiteral ["off", "heat"])
  let upd ← ofield d ["update"] readDictVal
  let va ← ofield d ["valve_alarm"] readBool
  let vd ← ofield d ["valve_detection"] readBool
  let vo ← ofield d ["voltage"] readInt
  let wd ← ofield d ["window_detection"] readBool
  let wo ← ofield d ["window_open"] readBool
  .ok { last_seen := ls, away_preset_temperature := apt, battery := bat,
        calibrated := cal, child_lock := cl, device_temperature := dt,
        external_temperature_input := eti, internal_heating_setpoint := ihs,
        linkquality := lq, local_temperature := lt,
        occupied_heating_setpoint := ohs, power_outage_count := poc,
        preset := pre, schedule := sch, schedule_settings := scs,
        sensor := sen, setup := stp, system_mode := sm, update := upd,
        valve_alarm := va, valve_detection := vd, voltage := vo,
        window_detection := wd, window_open := wo }

/-- Parse `abstract.Alarm` from a dict. -/
def parseAlarm (d : Dict) : Except PyError Alarm := do
  let ls ← ofield d ["last_seen", "Time"] readDatetime
  let al ← ofield d ["alarm"] readBool
  let bl ← ofield d ["battery_low"] readBool
  let du ← ofield d ["duration"] readInt
  let me ← ofield d ["melody"] readInt
  let vo ← ofield d ["volume"] (readLiteral ["low", "medium", "high"])
  .ok { last_seen := ls, alarm := al, battery_low := bl, duration := du,
        melody := me, volume := vo }

/-- `Message.refined` actual payloads: a `DeviceState`, an `Availability`
or a `Registry` (the static type in `messenger.py` is `Optional[Item]`,
but these are the values the processors store). -/
inductive Refined where
  | state (s : DeviceState)
  | availability (a : Availability)
  | registry (r : Registry)

/-- `messenger.Message`: the pipeline envelope. The `uuid4` message id is
omitted (no claim mentions it). -/
structure Message where
  protocol : Protocol
  model : Option Model := none
  device_name : String
  message_type : MessageType
  raw_item : Item
  refined : Option Refined := none

/-- `messenger.is_type_discovery`. -/
def is_type_discovery (msg : Message) : Bool := msg.message_type = MessageType.DISCO

/-- `messenger.is_type_availability`. -/
def is_type_availability (msg : Message) : Bool := msg.message_type = MessageType.AVAIL

/-- `messenger.is_type_state`. -/
def is_type_state (msg : Message) : Bool := msg.message_type = MessageType.STATE

/-! ## `processor.py`: device directory and pipeline processors -/

/-- `processor.DeviceDirectory._directory`: a dict from device name to
`Device`, in insertion order. -/
abbrev Directory := List (String × Device)

/-- Python dict assignment `d[k] = v`: overwrite in place if the key
exists, else append. -/
def dictInsertDev (dir : Directory) (name : String) (d : Device) : Directory :=
  if dir.any (fun kv => kv.1 == name) then
    dir.map (fun kv => if kv.1 == name then (name, d) else kv)
  else
    dir ++ [(name, d)]

/-- `DeviceDirectory.update_devices`: merge a device list into the
directory, keyed by name (later list entries overwrite earlier ones). -/
def updateDevices (dir : Directory) (devs : List Device) : Directory :=
  devs.foldl (fun acc d => dictInsertDev acc d.name d) dir

/-- `DeviceDirectory.get_device`. -/
def getDevice (dir : Directory) (name : String) : Option Device :=
  match dir.find? (fun kv => kv.1 == name) with
  | some kv => some kv.2
  | none => none

/-- Sequential effectful map over a list, failing on the first raise: the
evaluation order of a Python list comprehension whose body may raise. -/
def exceptMapM (f : α → Except PyError β) : List α → Except PyError (List β)
  | [] => .ok []
  | a :: t => do
      let b ← f a
      let bs ← exceptMapM f t
      .ok (b :: bs)

/-- Is a Z2M discovery entry of a registered type
(`entry.get("type") in ["EndDevice", "Router"]`)? -/
def isIncludedType (e : Dict) : Bool :=
  match Dict.get e "type" with
  | some (.str t) => t = "EndDevice" || t = "Router"
  | _ => false

/-- `entry.get("definition", {}).get("model")`: absent `definition` means
`{}`; a present non-dict `definition` makes the chained `.get` raise
`AttributeError`. -/
def definitionModel (e : Dict) : Except PyError (Option JsonVal) :=
  match Dict.get e "definition" with
  | none => .ok none
  | some (.obj dd) => .ok (Dict.get dd "model")
  | some _ => .error (.attributeError "object has no attribute get")

/-- Construct the `dev.Device` for one included Z2M discovery entry
(pydantic validates `name` as a required `str` and `address` as an
optional `str`). -/
def entryDevice (e : Dict) : Except PyError Device := do
  let name ← match Dict.get e "friendly_name" with
    | some (.str s) => Except.ok s
    | _ => Except.error (.validationError "name: Input should be a valid string")
  let address ← match Dict.get e "ieee_address" with
    | none => Except.ok (none : Option String)
    | some .null => Except.ok none
    | some (.str s) => Except.ok (some s)
    | some _ => Except.error (.validationError "address: Input should be a valid string")
  let dm ← definitionModel e
  .ok { name := name, protocol := Protocol.Z2M, address := address,
        model := some (Model.fromStr dm) }

/-- The `friendly_name` of one included entry, validated as a `str` by the
`Registry` pydantic model. -/
def entryName (e : Dict) : Except PyError String :=
  match Dict.get e "friendly_name" with
  | some (.str s) => .ok s
  | _ => .error (.validationError "device_names: Input should be a valid string")

/-- `Discoverer._discover_z2m`: requires a list payload; builds the device
records of the `EndDevice`/`Router` entries, merges them into the
directory, and refines the message with the registry of their names. -/
def discoverZ2m (dir : Directory) (msg : Message) :
    Except PyError (Directory × Message) :=
  match msg.raw_item.data with
  | .listDict entries => do
      let devs ← exceptMapM entryDevice (entries.filter isIncludedType)
      let dir' := updateDevices dir devs
      let names ← exceptMapM entryName (entries.filter isIncludedType)
      .ok (dir', { msg with refined := some (.registry { device_names := names }) })
  | _ => .error (.decodingError "Bad format")

/-- `Discoverer._discover_tasmota`: requires a dict payload with keys
`t` (name), `hn` (address) and `md` (model). -/
def discoverTasmota (dir : Directory) (msg : Message) :
    Except PyError (Directory × Message) :=
  match msg.raw_item.data with
  | .dict d =>
      if (Dict.get d "hn").isSome && (Dict.get d "t").isSome && (Dict.get d "md").isSome then do
        let name ← match Dict.get d "t" with
          | some (.str s) => Except.ok s
          | _ => Except.error (.validationError "name: Input should be a valid string")
        let address ← match Dict.get d "hn" with
          | some .null => Except.ok (none : Option String)
          | some (.str s) => Except.ok (some s)
          | _ => Except.error (.validationError "address: Input should be a valid string")
        let device : Device :=
          { name := name, protocol := Protocol.TASMOTA, address := address,
            model := some (Model.fromStr (Dict.get d "md")) }
        let dir' := updateDevices dir [device]
        .ok (dir', { msg with refined := some (.registry { device_names := [name] }) })
      else .error (.decodingError "Bad format")
  | _ => .error (.decodingError "Expecting dict type")

/-- `Discoverer.process`: only `DISCO` messages are accepted; the model is
pinned to `NONE` and the protocol-specific discovery runs. An unknown
protocol is logged and the message returned unrefined. -/
def discovererProcess (dir : Directory) (msg : Message) :
    Except PyError (Directory × Message) :=
  if msg.message_type ≠ MessageType.DISCO then
    .error (.decodingError "Not a discovery message")
  else
    let msg := { msg with model := some Model.NONE }
    match msg.protocol with
    | .Z2M => discoverZ2m dir msg
    | .TASMOTA => discoverTasmota dir msg
    | _ => .ok (dir, msg)

/-- `ModelResolver.process`: rejects `DISCO`; otherwise fills
`message.model` from the directory (`UNKNOWN` when the device is absent;
note that a found device may itself carry `model = None`). -/
def modelResolverProcess (dir : Directory) (msg : Message) :
    Except PyError Message :=
  if msg.message_type = MessageType.DISCO then
    .error (.decodingError "Discovery message not allowed")
  else
    let model := match getDevice dir msg.device_name with
      | some d => d.model
      | none => some Model.UNKNOWN
    .ok { msg with model := model }

/-- `AvailabilityNormalizer._decode_availability`: any token other than
the two expected ones raises `DecodingException`. -/
def decodeAvailability (value : String) (onTok offTok : String) :
    Except PyError Bool :=
  if value ≠ onTok ∧ value ≠ offTok then
    .error (.decodingError "Unknown availability value")
  else .ok (value = onTok)

/-- The token decoding of `AvailabilityNormalizer.process` by protocol:
TASMOTA expects the raw string `Online`/`Offline` (a non-string payload is
an unknown token); Z2M expects a dict with key `state` or a bare string,
with tokens `online`/`offline`. -/
def availDecodeValue (msg : Message) : Except PyError Bool :=
  match msg.protocol with
  | .TASMOTA =>
      match msg.raw_item.data with
      | .str s => decodeAvailability s "Online" "Offline"
      | _ => Except.error (.decodingError "Unknown availability value")
  | .Z2M => do
      let value ← match msg.raw_item.data with
        | .dict d => Except.ok (Dict.get d "state")
        | .str s => Except.ok (some (JsonVal.str s))
        | _ => Except.error (.decodingError "Bad type")
      match value with
      | some (.str s) => decodeAvailability s "online" "offline"
      | _ => Except.error (.decodingError "Unknown availability value")
  | _ => Except.error (.decodingError "Protocol not covered")

/-- `AvailabilityNormalizer.process`: only `AVAIL` messages are accepted;
the decoded online flag is stored as the refined `Availability`. -/
def availabilityNormalizerProcess (msg : Message) : Except PyError Message :=
  if msg.message_type ≠ MessageType.AVAIL then
    Except.error (.decodingError "Not an availability message")
  else
    (availDecodeValue msg).map
      (fun b => { msg with refined := some (.availability { is_online := b }) })

/-- `StateNormalizer._REFINE_CONFIG`: the model-to-variant table, as a
lookup from the message's (nullable) model to the variant parser. -/
def refineTarget : Option Model → Option (Dict → Except PyError DeviceState)
  | some .SN_AIRSENSOR => some (fun d => (parseAirSensor d).map .airSensor)
  | some .SN_MINI => some (fun d => (parseSwitch d).map .switch)
  | some .SN_MINI_L2 => some (fun d => (parseSwitch d).map .switch)
  | some .SN_SMART_PLUG => some (fun d => (parseSwitch d).map .switch)
  | some .SHELLY_PLUGS => some (fun d => (parseSwitch d).map .switch)
  | some .SHELLY_UNI => some (fun d => (parseSwitch2Channels d).map .switch2)
  | some .SN_MOTION => some (fun d => (parseMotion d).map .motion)
  | some .SN_BUTTON => some (fun d => (parseButton d).map .button)
  | some .SRTS_A01 => some (fun d => (parseSrtsA01 d).map .srtsA01)
  | some .NEO_ALARM => some (fun d => (parseAlarm d).map .alarm)
  | _ => none

/-- `StateNormalizer.process`. Z2M: unsupported model drops; non-dict
payload raises `DecodingException`; a pydantic `ValidationError` is logged
and re-raised as `DecodingException`. TASMOTA with tag `STATE`: unsupported
model drops; the pydantic construction is not wrapped, so a
`ValidationError` propagates as such, and a non-dict payload makes the
`**` unpacking raise `TypeError`. TASMOTA with tag `SENSOR`: the `ANALOG`
and `ENERGY` sub-mappings are read for logging (raising `AttributeError`
on a non-dict payload) and the message is returned unchanged, its
`refined` left as it was. Anything else drops. -/
def stateNormalizerProcess (msg : Message) : Except PyError (Option Message) :=
  if msg.message_type ≠ MessageType.STATE then
    .error (.decodingError "Not a state message")
  else
    let target := refineTarget msg.model
    if msg.protocol = Protocol.Z2M then
      match target with
      | none => .ok none
      | some parse =>
          match msg.raw_item.data with
          | .dict d =>
              match parse d with
              | .ok st => .ok (some { msg with refined := some (.state st) })
              | .error (.validationError e) => .error (.decodingError e)
              | .error e => .error e
          | _ => .error (.decodingError "Bad format")
    else if msg.protocol = Protocol.TASMOTA then
      if msg.raw_item.tag = some "STATE" then
        match target with
        | none => .ok none
        | some parse =>
            match msg.raw_item.data with
            | .dict d =>
                match parse d with
                | .ok st => .ok (some { msg with refined := some (.state st) })
                | .error e => .error e
            | _ => .error (.typeError "argument after ** must be a mapping")
      else if msg.raw_item.tag = some "SENSOR" then
        match msg.raw_item.data with
        | .dict _ => .ok (some msg)
        | _ => .error (.attributeError "object has no attribute get")
      else .ok none
    else .ok none

/-- A Python value that is either a `bool` or a `str`: the actual result
type of `processor.is_switch_power_expected`. -/
inductive PyValue where
  | bool (b : Bool)
  | str (s : String)
  deriving Repr, DecidableEq

/-- `processor._check_devices`: `check_parameter` raises `TypeError` on a
`None` device-names argument; `"*"` anywhere in the string matches all;
otherwise membership in the comma-separated list. -/
def checkDevices (msg : Message) (deviceNames : Option String) :
    Except PyError Bool :=
  match deviceNames with
  | none => .error (.typeError "Not optional parameter device_names is None")
  | some s =>
      if strContainsChar s '*' then .ok true
      else .ok (msg.device_name ∈ pySplitChar ',' s)

/-- `processor._check_message_typing` specialised to the tuple
`(Switch, Switch2Channels)`: unrefined or non-STATE messages yield
`False`; a refined STATE of any other class raises `TypeError`. -/
def checkMessageTypingSwitch (msg : Message) : Except PyError Bool :=
  match msg.refined with
  | none => .ok false
  | some r =>
      if msg.message_type ≠ MessageType.STATE then .ok false
      else
        match r with
        | .state (.switch _) => .ok true
        | .state (.switch2 _) => .ok true
        | _ => .error (.typeError "Message should refer to expected type")

/-- `processor.is_switch_power_expected`: when the guards pass, Python
evaluates `msg.refined.power == abstract.POWER_ON if is_on else
abstract.POWER_OFF`, i.e. the conditional expression
`(msg.refined.power == POWER_ON) if is_on else POWER_OFF` — for
`is_on=False` the returned value is the constant string `"OFF"`.
Reading `.power` on a `Switch2Channels` raises `AttributeError`. -/
def isSwitchPowerExpected (msg : Message) (deviceNames : Option String)
    (isOn : Bool) : Except PyError PyValue := do
  let devOk ← checkDevices msg deviceNames
  if devOk then
    let tyOk ← checkMessageTypingSwitch msg
    if tyOk then
      if isOn then
        match msg.refined with
        | some (.state (.switch s)) => Except.ok (.bool (s.power = some "ON"))
        | _ => Except.error (.attributeError "object has no attribute power")
      else Except.ok (.str "OFF")
    else Except.ok (.bool false)
  else Except.ok (.bool false)

/-! ## `encoder.py`: canonical-state → wire-payload encoder -/

/-- `encoder.Encoder`: the per-model field metadata. -/
structure Encoder where
  settable_fields : List String
  gettable_fields : List String
  field_aliases : Option (List (String × String)) := none
  field_converters : Option (List (String × (JsonVal → JsonVal))) := none

/-- Lookup in an optional string-keyed dict (`d.get(key)` after the
`if ... else None` guard of `Encoder.transform`). -/
def optLookup (m : Option (List (String × α))) (k : String) : Option α :=
  match m with
  | none => none
  | some l =>
      match l.find? (fun kv => kv.1 == k) with
      | some kv => some kv.2
      | none => none

/-- Python dict assignment `d[k] = v` on a `JsonVal` dict. -/
def dictInsertVal (d : List (String × JsonVal)) (k : String) (v : JsonVal) :
    List (String × JsonVal) :=
  if d.any (fun kv => kv.1 == k) then
    d.map (fun kv => if kv.1 == k then (k, v) else kv)
  else
    d ++ [(k, v)]

/-- The body of `Encoder.transform`'s loop over the dump. -/
def transformStep (e : Encoder) (acc : List (String × JsonVal))
    (kv : String × JsonVal) : List (String × JsonVal) :=
  let al := optLookup e.field_aliases kv.1
  let conv := optLookup e.field_converters kv.1
  let tv := match conv with
    | none => kv.2
    | some f => f kv.2
  match al with
  | none => dictInsertVal acc kv.1 tv
  | some a => dictInsertVal acc a tv

/-- `Encoder.transform`: dump the state without its `None` fields, then
convert each value and rename each key through the alias table, building
the encoded dict. Fallible only through `model_dump` (ADC's computed
field). -/
def Encoder.transform (e : Encoder) (state : DeviceState) :
    Except PyError (List (String × JsonVal)) := do
  let dump ← state.modelDump
  .ok (dump.foldl (transformStep e) [])

/-- `encoder.EncoderRegistry`: the static registry populated at the bottom
of `encoder.py` (note the literal duplicate `schedule_settings` in the
SRTS-A01 settable list, kept as in the source). -/
def getEncoder : Model → Option Encoder
  | .SN_MINI | .SN_MINI_L2 | .SN_SMART_PLUG =>
      some { settable_fields := ["state"], gettable_fields := ["state"],
             field_aliases := some [("power", "state")] }
  | .SHELLY_PLUGS =>
      some { settable_fields := ["Power"], gettable_fields := ["Power"],
             field_aliases := some [("power", "Power")] }
  | .SHELLY_UNI =>
      some { settable_fields := ["Power1", "Power2"],
             gettable_fields := ["Power1", "Power2"],
             field_aliases := some [("power1", "Power1"), ("power2", "Power2")] }
  | .NEO_ALARM =>
      some { settable_fields := ["alarm", "duration", "melody", "volume"],
             gettable_fields := [] }
  | .SRTS_A01 =>
      some { settable_fields :=
               ["child_lock", "external_temperature_input",
                "occupied_heating_setpoint", "preset", "schedule_settings",
                "schedule", "schedule_settings", "sensor", "system_mode",
                "valve_detection", "window_detection"],
             gettable_fields := ["child_lock"] }
  | _ => none

/-- `encoder.encode`: transform through the model's encoder; with no
registered encoder the state is dumped untransformed (full dump, `None`
fields included as `null`). -/
def encode (model : Model) (state : DeviceState) :
    Except PyError (List (String × JsonVal)) :=
  match getEncoder model with
  | none =>
      match state with
      | .adc s =>
          (match s.Range with
           | none => .error (.typeError "unsupported operand type(s) for /: 'NoneType' and 'int'")
           | some r =>
               .ok [("last_seen", (s.last_seen).getD .null), ("Range", .num r),
                    ("voltage", .num (r / 100))])
      | s => .ok (s.fieldBindings.map (fun kv => (kv.1, kv.2.getD .null)))
  | some e => e.transform state

/-! ## `messenger.Dispatcher`: the stage consumer loop -/

/-- A stage handler: `Callable[[Message], Optional[Message]]`, fallible. -/
abbrev Handler := Message → Except PyError (Option Message)

/-- A dispatcher's configuration: ordered (condition, handler) pairs and
the default handler. Conditions are pure predicates, as in the source. -/
structure DispatcherCfg where
  conditional_handlers : List ((Message → Bool) × Handler)
  default_handler : Handler

/-- The handler chosen for a message: the first whose condition holds,
else the default (later matches are only logged and ignored). This is the
single `_process_and_put` call the loop body performs, and its result. -/
def chosenResult (cfg : DispatcherCfg) (msg : Message) :
    Except PyError (Option Message) :=
  match cfg.conditional_handlers.find? (fun ch => ch.1 msg) with
  | some ch => ch.2 msg
  | none => cfg.default_handler msg

/-- The fate of one loop iteration of `Dispatcher._run`. -/
inductive StepResult where
  | continues (forwarded : List Message)
  | crashed (e : PyError)

/-- One iteration of `Dispatcher._run` on a message: the loop body runs
inside `try ... except TypeError`, so a handler exception is caught (and
the loop continues) exactly when it is a `TypeError`; any other exception
propagates out of `_run` and terminates the consumer thread. -/
def dispatchStep (cfg : DispatcherCfg) (msg : Message) : StepResult :=
  match chosenResult cfg msg with
  | .ok none => .continues []
  | .ok (some m) => .continues [m]
  | .error e => if e.isTypeError then .continues [] else .crashed e

/-- `Dispatcher._run` consuming a queue of messages in order: the
forwarded outputs and, if the loop died, the uncaught exception (with all
later messages left unconsumed). -/
def dispatchRun (cfg : DispatcherCfg) :
    List Message → List Message × Option PyError
  | [] => ([], none)
  | m :: rest =>
      match dispatchStep cfg m with
      | .continues out =>
          let r := dispatchRun cfg rest
          (out ++ r.1, r.2)
      | .crashed e => ([], some e)

/-! ## `central.py`: topic registry, Scrutinizer, timers, DeviceAccessor -/

/-- `_InfoTopicManager` registry: `info_topic_base` per (protocol,
message type); protocols never registered yield `none` (a lookup then hits
`None.device_name_offset`, an `AttributeError`). -/
def infoTopicBase : Protocol → MessageType → Option String
  | .Z2M, _ => some "zigbee2mqtt"
  | .TASMOTA, .AVAIL => some "tele"
  | .TASMOTA, .STATE => some "tele"
  | .TASMOTA, .DISCO => some "tasmota/discovery"
  | _, _ => none

/-- `_InfoTopicManager.resolve_wildcards`:
`topic[offset:].split("/")[position]` with
`offset = len(info_topic_base) + 1`; an out-of-range position raises
`IndexError`. -/
def resolveWildcards (p : Protocol) (t : MessageType) (topic : String)
    (position : Nat) : Except PyError String :=
  match infoTopicBase p t with
  | none => .error (.attributeError "NoneType has no attribute device_name_offset")
  | some base =>
      let parts := pySplitChar '/' (topic.drop (base.length + 1))
      match parts.get? position with
      | some s => .ok s
      | none => .error (.indexError "list index out of range")

/-- `Item.data` validation against `Union[Dict, str, List[Dict]]`:
`none` is a pydantic `ValidationError`. -/
def jsonToRawData : JsonVal → Option RawData
  | .obj d => some (.dict d)
  | .str s => some (.str s)
  | .arr elems =>
      match elems.mapM (fun e => match e with | .obj d => some d | _ => none) with
      | some ds => some (.listDict ds)
      | none => none
  | _ => none

/-- `Scrutinizer._json_to_item` on an already-parsed payload: resolve the
TASMOTA sub-topic tag (position 1) and build the `Item`; a pydantic
`ValidationError` on the `Item` is caught and yields `None`. -/
def jsonToItem (p : Protocol) (t : MessageType) (topic : String)
    (parsed : JsonVal) : Except PyError (Option Item) := do
  let tag ← if p = Protocol.TASMOTA then (resolveWildcards p t topic 1).map some
            else pure none
  match jsonToRawData parsed with
  | some rd => Except.ok (some { data := rd, tag := tag })
  | none => Except.ok none

/-- `Scrutinizer._process_message` on one received MQTT message,
returning the message put on the raw queue (`none` = dropped).
`json.loads` is the Python standard library (external to this repository),
so its outcome is the parameter `parsed` (`none` = `json.JSONDecodeError`).
The decoded payload `str(mqtt_message.payload.decode("utf-8"))` is always
a `str`, so the source's `if _raw_payload is None:` test (the intended
empty-payload drop) is the constant `False` and is dead code: it is
therefore absent here, and an empty payload flows on like any other. -/
def scrutinizerProcess (p : Protocol) (t : MessageType) (topic : String)
    (payload : String) (parsed : Option JsonVal) :
    Except PyError (Option Message) := do
  let deviceName ← resolveWildcards p t topic 0
  match parsed with
  | none =>
      if p = Protocol.TASMOTA ∧ t = MessageType.STATE then Except.ok none
      else
        Except.ok (some { protocol := p, model := none, device_name := deviceName,
                          message_type := t, raw_item := { data := .str payload } })
  | some j => do
      let itemOpt ← jsonToItem p t topic j
      match itemOpt with
      | some item =>
          Except.ok (some { protocol := p, model := none, device_name := deviceName,
                            message_type := t, raw_item := item })
      | none => Except.error (.validationError "raw_item: none is not a valid Item")

/-- Python dict assignment `d[k] = v`, generic in the value type. -/
def pyDictInsert (d : List (String × α)) (k : String) (v : α) :
    List (String × α) :=
  if d.any (fun kv => kv.1 == k) then
    d.map (fun kv => if kv.1 == k then (k, v) else kv)
  else
    d ++ [(k, v)]

/-- A timer recorded by `_TimerManager`: its identity and the device it
was created for. -/
structure TimerEntry where
  id : Nat
  device : String
  deriving Repr, DecidableEq

/-- The `_TimerManager` state: the `device_name → timer` registry dict,
the list of started-and-not-yet-cancelled-or-fired timers, and a fresh-id
counter. -/
structure TMState where
  registry : List (String × Nat)
  pending : List TimerEntry
  nextId : Nat

/-- `_TimerManager.create_timer` under the registry lock: cancel the
previously registered timer for the device (if any), start a fresh timer
and record it in the registry under the device name. -/
def createTimer (s : TMState) (device : String) : TMState :=
  let pending' := match optLookup (some s.registry) device with
    | some pid => s.pending.filter (fun te => te.id ≠ pid)
    | none => s.pending
  { registry := pyDictInsert s.registry device s.nextId,
    pending := pending' ++ [⟨s.nextId, device⟩],
    nextId := s.nextId + 1 }

/-- A timer firing (its task starts running): it is no longer pending but
stays in the registry dict. -/
def fireTimer (s : TMState) (id : Nat) : TMState :=
  { s with pending := s.pending.filter (fun te => te.id ≠ id) }

/-- The externally visible `_TimerManager` events of a run. -/
inductive TMEvent where
  | create (device : String)
  | fire (id : Nat)

def tmStep (s : TMState) : TMEvent → TMState
  | .create device => createTimer s device
  | .fire id => fireTimer s id

/-- The empty `_TimerManager` state at process start. -/
def tmInit : TMState := { registry := [], pending := [], nextId := 0 }

def tmRun (events : List TMEvent) : TMState := events.foldl tmStep tmInit

/-- `_CommandTopicManager` registry: `Z2M → zigbee2mqtt`,
`TASMOTA → cmnd`; any other protocol is an unregistered dict key
(`KeyError`). -/
def commandBaseTopic : Protocol → Except PyError String
  | .Z2M => .ok "zigbee2mqtt"
  | .TASMOTA => .ok "cmnd"
  | _ => .error (.keyError "protocol not registered")

/-- An MQTT publish payload: a JSON-encoded dict or a plain string. -/
inductive PubPayload where
  | json (d : List (String × JsonVal))
  | raw (s : String)

/-- A deferred task handed to `_TimerManager.create_timer` by
`DeviceAccessor`: either `_do_switch_power` or `switch_power_change`
itself (with its full keyword set). -/
inductive TimerTask where
  | doSwitchPower (device : String) (protocol : Protocol) (model : Model)
      (powerOn : Bool)
  | switchPowerChangeTask (deviceNames : String) (protocol : Protocol)
      (model : Model) (powerOn : Bool) (countdown onTime offTime : ℚ)

/-- The externally visible actions of `DeviceAccessor`: MQTT publishes
and timer creations. -/
inductive Effect where
  | publish (topic : String) (payload : PubPayload) (qos : Nat) (retain : Bool)
  | schedule (device : String) (countdown : ℚ) (task : TimerTask)

/-- Number of MQTT publishes among a list of effects. -/
def countPublishes (effs : List Effect) : Nat :=
  (effs.filter (fun e => match e with | .publish _ _ _ _ => true | _ => false)).length

/-- `str(value)` for the payload values sent on TASMOTA command topics.
Only string values are exercised by the code's encoders; numbers and
containers are approximated. -/
def pyStr : JsonVal → String
  | .str s => s
  | .bool b => if b then "True" else "False"
  | .null => "None"
  | .num q => if q.den = 1 then toString q.num else toString q
  | .obj _ => "<dict>"
  | .arr _ => "<list>"

/-- `DeviceAccessor.trigger_change_state`: Z2M publishes the JSON state to
`{base}/{device}/set`; TASMOTA publishes `str(value)` to
`{base}/{device}/{key}` per entry; both with QoS 1, retain `False`. -/
def triggerChangeState (device : String) (protocol : Protocol)
    (state : List (String × JsonVal)) : Except PyError (List Effect) := do
  let base ← commandBaseTopic protocol
  match protocol with
  | .Z2M => Except.ok [.publish (base ++ "/" ++ device ++ "/set") (.json state) 1 false]
  | .TASMOTA =>
      Except.ok (state.map (fun kv =>
        .publish (base ++ "/" ++ device ++ "/" ++ kv.1) (.raw (pyStr kv.2)) 1 false))
  | _ => Except.error (.notImplementedError "Unknown protocol")

/-- `DeviceAccessor.trigger_get_state`: no registered encoder means a
debug log and no publish; Z2M publishes one JSON dict of empty strings to
`{base}/{device}/get`; TASMOTA publishes one empty payload per gettable
field. -/
def triggerGetState (device : String) (protocol : Protocol)
    (model : Option Model) : Except PyError (List Effect) := do
  let base ← commandBaseTopic protocol
  match model.bind getEncoder with
  | none => Except.ok []
  | some enc =>
      match protocol with
      | .Z2M =>
          Except.ok [.publish (base ++ "/" ++ device ++ "/get")
            (.json (enc.gettable_fields.foldl (fun acc f => pyDictInsert acc f (.str "")) []))
            1 false]
      | .TASMOTA =>
          Except.ok (enc.gettable_fields.map (fun f =>
            .publish (base ++ "/" ++ device ++ "/" ++ f) (.raw "") 1 false))
      | _ => Except.error (.notImplementedError "Unknown protocol")

/-- `DeviceAccessor._do_switch_power`: encode `SWITCH_ON`/`SWITCH_OFF`
through the model's encoder and publish the state change. -/
def doSwitchPowerEffects (device : String) (protocol : Protocol)
    (model : Model) (powerOn : Bool) : Except PyError (List Effect) := do
  let state ← encode model (.switch (if powerOn then SWITCH_ON else SWITCH_OFF))
  triggerChangeState device protocol state

/-- `DeviceAccessor._do_switch_power_change` for one device: a non-zero
countdown only schedules `switch_power_change` itself (with
`countdown=0`); a zero countdown publishes immediately and, when turning
on with `on_time > 0` (or off with `off_time > 0`), schedules the
deferred opposite switch via the timer manager. -/
def doSwitchPowerChange (device : String) (protocol : Protocol)
    (model : Model) (powerOn : Bool) (countdown onTime offTime : ℚ) :
    Except PyError (List Effect) :=
  if countdown ≠ 0 then
    .ok [.schedule device countdown
          (.switchPowerChangeTask device protocol model powerOn 0 onTime offTime)]
  else do
    let effs ← doSwitchPowerEffects device protocol model powerOn
    if powerOn ∧ onTime > 0 then
      Except.ok (effs ++ [.schedule device onTime (.doSwitchPower device protocol model false)])
    else if ¬powerOn ∧ offTime > 0 then
      Except.ok (effs ++ [.schedule device offTime (.doSwitchPower device protocol model true)])
    else Except.ok effs

/-- `DeviceAccessor.switch_power_change`: split the comma-separated names
and handle each device independently, concatenating the actions. -/
def switchPowerChange (deviceNames : String) (protocol : Protocol)
    (model : Model) (powerOn : Bool) (countdown onTime offTime : ℚ) :
    Except PyError (List Effect) :=
  (pySplitChar ',' deviceNames).foldlM
    (fun acc d => (doSwitchPowerChange d protocol model powerOn countdown onTime offTime).map
      (fun effs => acc ++ effs)) []

/-- Running a deferred timer task when it fires. -/
def runTimerTask : TimerTask → Except PyError (List Effect)
  | .doSwitchPower d p m pw => doSwitchPowerEffects d p m pw
  | .switchPowerChangeTask dn p m pw cd ot ft => switchPowerChange dn p m pw cd ot ft

/-! ## `central.get_refined_data_queue`: the three-stage pipeline

The three dispatchers are modelled per message: the value a raw message
becomes on the refined queue, if any (`none` = dropped, `.error` = the
stage handler raised). The device directory is threaded explicitly. -/

/-- Stage 1 (`pipeline-discovery`): `DISCO` messages go to
`Discoverer.process`; everything else passes through. -/
def stage1 (dir : Directory) (msg : Message) :
    Except PyError (Directory × Option Message) :=
  if is_type_discovery msg then
    (discovererProcess dir msg).map (fun r => (r.1, some r.2))
  else .ok (dir, some msg)

/-- The default handler of stage 2 (`_get_device_state`): walk
`message.refined.device_names` (an `AttributeError` when `refined` is not
a `Registry`), look each device up (`_device.model` on a missing device is
an `AttributeError` on `None`) and trigger a get-state publish; the
message is returned unchanged. -/
def getDeviceStateHandler (dir : Directory) (msg : Message) :
    Except PyError (Option Message) :=
  match msg.refined with
  | some (.registry r) => do
      let _ ← exceptMapM (fun n => do
        match getDevice dir n with
        | none => Except.error (.attributeError "NoneType has no attribute model")
        | some d => do
            let _ ← triggerGetState n d.protocol d.model
            Except.ok ()) r.device_names
      Except.ok (some msg)
  | _ => .error (.attributeError "object has no attribute device_names")

/-- Stage 2 (`pipeline-layer1`): non-`DISCO` messages go to
`ModelResolver.process`; `DISCO` messages hit the default handler
`_get_device_state`. -/
def stage2 (dir : Directory) (msg : Message) : Except PyError (Option Message) :=
  if ¬ is_type_discovery msg then (modelResolverProcess dir msg).map some
  else getDeviceStateHandler dir msg

/-- Stage 3 (`normalizer`): `AVAIL` to `AvailabilityNormalizer`, `STATE`
to `StateNormalizer`, everything else (i.e. `DISCO`) passes through. -/
def stage3 (msg : Message) : Except PyError (Option Message) :=
  if is_type_availability msg then (availabilityNormalizerProcess msg).map some
  else if is_type_state msg then stateNormalizerProcess msg
  else .ok (some msg)

/-- The journey of one raw message through the pipeline of
`get_refined_data_queue`: the directory after stage 1 and the message
that reaches the refined queue, if any. -/
def pipeline (dir : Directory) (msg : Message) :
    Except PyError (Directory × Option Message) := do
  let r1 ← stage1 dir msg
  match r1.2 with
  | none => Except.ok (r1.1, none)
  | some m1 => do
      let m2opt ← stage2 r1.1 m1
      match m2opt with
      | none => Except.ok (r1.1, none)
      | some m2 => do
          let m3opt ← stage3 m2
          Except.ok (r1.1, m3opt)

/-! ## Claims about `abstract.ADC` and `processor.is_switch_power_expected` -/

/-- C10: for every ADC state, the computed `voltage` property equals
`Range / 100` when `Range` is set, and reading `voltage` with `Range`
unset (its default) raises a `TypeError` instead of returning a value:
`voltage` is a partial accessor, not total over all ADC states. -/
theorem adc_voltage_defined_iff (a : ADC) :
    (∀ r : ℚ, a.Range = some r → a.voltage = .ok (r / 100)) ∧
    (a.Range = none → ∃ e : PyError, a.voltage = .error e) := by
  constructor
  · intro r hr
    simp [ADC.voltage, hr]
  · intro hr
    refine ⟨.typeError "unsupported operand type(s) for /: 'NoneType' and 'int'", ?_⟩
    simp [ADC.voltage, hr]

/-- Witness for `adc_voltage_defined_iff` at `Range = 250` and at the default
`Range = None`. -/
theorem adc_voltage_defined_iff_witness :
    (({ Range := some 250 } : ADC).voltage = .ok (250 / 100)) ∧
    (∃ e : PyError, ({ Range := none } : ADC).voltage = .error e) :=
  ⟨(adc_voltage_defined_iff { Range := some 250 }).1 250 rfl,
   (adc_voltage_defined_iff { Range := none }).2 rfl⟩

/-- C9: for every message whose refined value is a `Switch` and whose
device name matches, `is_switch_power_expected` with `is_on=False`
returns the constant string `"OFF"` (a truthy non-boolean), independent
of the switch's `power` field, while only the `is_on=True` call tests
`msg.refined.power == "ON"`. -/
theorem is_switch_power_expected_off_constant (msg : Message)
    (names : String) (s : Switch)
    (hdev : checkDevices msg (some names) = .ok true)
    (href : msg.refined = some (.state (.switch s)))
    (hty : msg.message_type = MessageType.STATE) :
    isSwitchPowerExpected msg (some names) false = .ok (.str "OFF") ∧
    isSwitchPowerExpected msg (some names) true = .ok (.bool (s.power = some "ON")) := by
  have htyping : checkMessageTypingSwitch msg = .ok true := by
    simp [checkMessageTypingSwitch, href, hty]
  constructor <;>
    simp [isSwitchPowerExpected, hdev, htyping, href, Bind.bind, Except.bind]

/-- Witness for `is_switch_power_expected_off_constant`: a switch whose
power is `"OFF"` still makes the `is_on=False` call return the string
`"OFF"`, and makes the `is_on=True` call return `False`. -/
theorem is_switch_power_expected_off_constant_witness :
    isSwitchPowerExpected
      { protocol := .Z2M, model := some .SN_SMART_PLUG, device_name := "plug1",
        message_type := .STATE, raw_item := { data := .dict [] },
        refined := some (.state (.switch { power := some "OFF" })) }
      (some "plug1") false = .ok (.str "OFF") ∧
    isSwitchPowerExpected
      { protocol := .Z2M, model := some .SN_SMART_PLUG, device_name := "plug1",
        message_type := .STATE, raw_item := { data := .dict [] },
        refined := some (.state (.switch { power := some "OFF" })) }
      (some "plug1") true = .ok (.bool false) :=
  is_switch_power_expected_off_constant _ "plug1" { power := some "OFF" }
    rfl rfl rfl

/-! ## Claim about `Scrutinizer._process_message` (empty payloads) -/

/-- C3 (code bug): an MQTT message whose payload decodes to the empty
string is **not** dropped. The decoded payload is always a `str`, so the
source's `if _raw_payload is None:` guard (whose body logs
"Received empty message" and returns) can never fire; the empty payload
falls through JSON decoding (a `JSONDecodeError`) and — for a non-TASMOTA
or non-STATE topic — is wrapped as a raw-string `Item` and enqueued.
Failing input: topic `zigbee2mqtt/plug1` (Z2M STATE) with payload `""`. -/
theorem scrutinizer_empty_payload_enqueued :
    scrutinizerProcess Protocol.Z2M MessageType.STATE "zigbee2mqtt/plug1" "" none =
      .ok (some { protocol := .Z2M, model := none, device_name := "plug1",
                  message_type := .STATE, raw_item := { data := .str "" } }) := by
  rfl

/-! ## Claim about the SRTS-A01 range validation -/

/-- A Z2M STATE message for an `SRTS_A01` whose raw mapping carries one
`occupied_heating_setpoint` value. -/
def srtsMsg (v : ℚ) : Message :=
  { protocol := .Z2M, model := some .SRTS_A01, device_name := "thermostat1",
    message_type := .STATE,
    raw_item := { data := .dict [("occupied_heating_setpoint", .num v)] } }

/-- C4: a Z2M STATE message for model `SRTS_A01` with
`occupied_heating_setpoint = v` outside the open interval `5 < v < 30`
makes `StateNormalizer.process` raise a `DecodingException` (the pydantic
`ValidationError` is re-raised), so no refined message is produced; every
value strictly between 5 and 30 passes the bound check and yields the
refined thermostat state. -/
theorem srts_setpoint_bound_check (v : ℚ) :
    (5 < v ∧ v < 30 →
      stateNormalizerProcess (srtsMsg v) =
        .ok (some { srtsMsg v with
          refined := some (.state (.srtsA01 { occupied_heating_setpoint := some v })) })) ∧
    (¬(5 < v ∧ v < 30) →
      stateNormalizerProcess (srtsMsg v) =
        .error (.decodingError "Input should be in the open interval")) := by
  constructor <;> intro h <;>
    simp [stateNormalizerProcess, srtsMsg, refineTarget, parseSrtsA01, ofield,
          getAliased, Dict.get, readConFloat, Bind.bind, Except.bind, Except.map, h]

/-- Witness for `srts_setpoint_bound_check`: the value 40 is rejected
with a `DecodingException` while 20 is accepted and refined. -/
theorem srts_setpoint_bound_check_witness :
    stateNormalizerProcess (srtsMsg 40) =
      .error (.decodingError "Input should be in the open interval") ∧
    stateNormalizerProcess (srtsMsg 20) =
      .ok (some { srtsMsg 20 with
        refined := some (.state (.srtsA01 { occupied_heating_setpoint := some (20 : ℚ) })) }) :=
  ⟨(srts_setpoint_bound_check 40).2 (by norm_num),
   (srts_setpoint_bound_check 20).1 (by norm_num)⟩

/-! ## Claim about `_TimerManager`: at most one pending timer per device -/

/-- The `_TimerManager` state invariant: every pending timer is the one
currently recorded in the registry for its device, its id is below the
fresh-id counter, and pending ids are pairwise distinct. -/
def tmInv (s : TMState) : Prop :=
  (∀ te ∈ s.pending, optLookup (some s.registry) te.device = some te.id ∧ te.id < s.nextId) ∧
  (s.pending.map TimerEntry.id).Nodup

theorem find?_map_replace {α : Type} (k k' : String) (v : α) (hk' : k' ≠ k)
    (reg : List (String × α)) :
    List.find? (fun kv => kv.1 == k') (reg.map (fun kv => if kv.1 == k then (k, v) else kv)) =
      List.find? (fun kv => kv.1 == k') reg := by
  have hkk : (k == k') = false := beq_eq_false_iff_ne.mpr (fun e => hk' e.symm)
  induction reg with
  | nil => rfl
  | cons hd tl ih =>
      by_cases h : hd.1 = k
      · have h1 : (hd.1 == k) = true := beq_iff_eq.mpr h
        have h3 : (hd.1 == k') = false := by rw [h]; exact hkk
        simp only [List.map_cons, h1, if_true, List.find?, hkk, h3, ih]
      · have h1 : (hd.1 == k) = false := beq_eq_false_iff_ne.mpr h
        simp only [List.map_cons, h1, Bool.false_eq_true, if_false, List.find?]
        cases hp : (hd.1 == k')
        · simp only [ih]
        · rfl

theorem find?_eq_none_of_any_false {α : Type} (k : String)
    (reg : List (String × α)) (h : reg.any (fun kv => kv.1 == k) = false) :
    List.find? (fun kv => kv.1 == k) reg = none := by
  rw [List.find?_eq_none]
  intro kv hkv
  have := List.any_eq_false.mp h kv hkv
  simpa using this

theorem find?_map_replace_hit {α : Type} (k : String) (v : α)
    (reg : List (String × α)) (h : reg.any (fun kv => kv.1 == k) = true) :
    List.find? (fun kv => kv.1 == k) (reg.map (fun kv => if kv.1 == k then (k, v) else kv)) =
      some (k, v) := by
  induction reg with
  | nil => simp at h
  | cons hd tl ih =>
      by_cases hh : hd.1 = k
      · have h1 : (hd.1 == k) = true := beq_iff_eq.mpr hh
        simp [List.map_cons, h1, if_true, List.find?]
      · have h1 : (hd.1 == k) = false := beq_eq_false_iff_ne.mpr hh
        have htl : tl.any (fun kv => kv.1 == k) = true := by
          simp only [List.any_cons, h1, Bool.false_or] at h
          exact h
        simp only [List.map_cons, h1, Bool.false_eq_true, if_false, List.find?,
          ih htl]

/-- Looking up `k'` after the Python dict assignment `reg[k] = v`:
the new value at `k`, the old binding elsewhere. -/
theorem optLookup_pyDictInsert {α : Type} (reg : List (String × α)) (k k' : String) (v : α) :
    optLookup (some (pyDictInsert reg k v)) k' =
      if k' = k then some v else optLookup (some reg) k' := by
  simp only [optLookup, pyDictInsert]
  by_cases hmem : reg.any (fun kv => kv.1 == k) = true
  · simp only [hmem, if_true]
    by_cases hk : k' = k
    · subst hk
      rw [find?_map_replace_hit k' v reg hmem]
      simp
    · rw [find?_map_replace k k' v hk reg]
      simp [hk]
  · have hmem' : reg.any (fun kv => kv.1 == k) = false :=
      Bool.eq_false_iff.mpr hmem
    simp only [hmem', Bool.false_eq_true, if_false]
    by_cases hk : k' = k
    · subst hk
      rw [List.find?_append, find?_eq_none_of_any_false k' reg hmem']
      simp
    · rw [List.find?_append]
      have : List.find? (fun kv => kv.1 == k') [(k, v)] = none := by
        simp [beq_iff_eq]
        exact fun e => hk e.symm
      rw [this]
      simp [hk]

theorem tmInv_init : tmInv tmInit := by
  constructor <;> simp [tmInit]

theorem tmInv_create (s : TMState) (d : String) (h : tmInv s) :
    tmInv (createTimer s d) := by
  obtain ⟨hreg, hnd⟩ := h
  rcases hlk : optLookup (some s.registry) d with _ | pid
  all_goals
    constructor
  -- registry==none: pending is unchanged before the append
  · intro te hte
    simp only [createTimer, hlk, List.mem_append, List.mem_singleton] at hte
    rcases hte with hold | hnew
    · have h1 := hreg te hold
      have hdev : te.device ≠ d := by
        intro hd
        rw [hd, hlk] at h1
        exact Option.noConfusion h1.1
      refine ⟨?_, ?_⟩
      · simp only [createTimer, optLookup_pyDictInsert, hdev, if_false]
        exact h1.1
      · simp only [createTimer]
        exact Nat.lt_succ_of_lt h1.2
    · subst hnew
      refine ⟨?_, ?_⟩
      · simp [createTimer, optLookup_pyDictInsert]
      · simp [createTimer]
  · simp only [createTimer, hlk, List.map_append, List.map_cons, List.map_nil]
    rw [List.nodup_append]
    refine ⟨hnd, List.nodup_singleton _, ?_⟩
    intro x hx hy
    simp only [List.mem_singleton] at hy
    subst hy
    obtain ⟨te, hte, hid⟩ := List.mem_map.mp hx
    have := (hreg te hte).2
    omega
  -- registry==some pid: the previous timer is cancelled first
  · intro te hte
    simp only [createTimer, hlk, List.mem_append, List.mem_singleton] at hte
    rcases hte with hold | hnew
    · have hmem : te ∈ s.pending := (List.mem_filter.mp hold).1
      have hne : te.id ≠ pid := by
        have := (List.mem_filter.mp hold).2
        simpa using this
      have h1 := hreg te hmem
      have hdev : te.device ≠ d := by
        intro hd
        rw [hd, hlk] at h1
        exact hne (Option.some.inj h1.1).symm
      refine ⟨?_, ?_⟩
      · simp only [createTimer, optLookup_pyDictInsert, hdev, if_false]
        exact h1.1
      · simp only [createTimer]
        exact Nat.lt_succ_of_lt h1.2
    · subst hnew
      refine ⟨?_, ?_⟩
      · simp [createTimer, optLookup_pyDictInsert]
      · simp [createTimer]
  · simp only [createTimer, hlk, List.map_append, List.map_cons, List.map_nil]
    rw [List.nodup_append]
    have hsub : List.Sublist
        ((s.pending.filter (fun te => te.id ≠ pid)).map TimerEntry.id)
        (s.pending.map TimerEntry.id) :=
      (List.filter_sublist _).map TimerEntry.id
    refine ⟨hnd.sublist hsub, List.nodup_singleton _, ?_⟩
    intro x hx hy
    simp only [List.mem_singleton] at hy
    subst hy
    obtain ⟨te, hte, hid⟩ := List.mem_map.mp hx
    have hmem : te ∈ s.pending := (List.mem_filter.mp hte).1
    have := (hreg te hmem).2
    omega

theorem tmInv_fire (s : TMState) (id : Nat) (h : tmInv s) :
    tmInv (fireTimer s id) := by
  obtain ⟨hreg, hnd⟩ := h
  constructor
  · intro te hte
    exact hreg te (List.mem_filter.mp hte).1
  · exact hnd.sublist ((List.filter_sublist _).map TimerEntry.id)

theorem tmInv_step (s : TMState) (ev : TMEvent) (h : tmInv s) :
    tmInv (tmStep s ev) := by
  cases ev with
  | create d => exact tmInv_create s d h
  | fire id => exact tmInv_fire s id h

theorem tmInv_run (events : List TMEvent) : tmInv (tmRun events) := by
  suffices h : ∀ s, tmInv s → tmInv (events.foldl tmStep s) from h tmInit tmInv_init
  induction events with
  | nil => intro s hs; exact hs
  | cons ev rest ih => intro s hs; exact ih _ (tmInv_step s ev hs)

/-- All-equal lists of pairwise-distinct elements have length at most
one. -/
theorem length_le_one_of_nodup_const (l : List Nat) (c : Nat)
    (hnd : l.Nodup) (hall : ∀ x ∈ l, x = c) : l.length ≤ 1 := by
  match l with
  | [] => simp
  | [x] => simp
  | x :: y :: t =>
      exfalso
      have hx := hall x (by simp)
      have hy := hall y (by simp)
      have hne : x ≠ y := by
        have := List.nodup_cons.mp hnd
        intro hxy
        exact this.1 (hxy ▸ List.mem_cons_self y t)
      exact hne (hx.trans hy.symm)

theorem pending_filter_le_one (s : TMState) (d : String) (h : tmInv s) :
    (s.pending.filter (fun te => te.device == d)).length ≤ 1 := by
  rcases hlk : optLookup (some s.registry) d with _ | pid
  · have hnil : s.pending.filter (fun te => te.device == d) = [] := by
      rw [List.filter_eq_nil_iff]
      intro te hte hdev
      have hdev' : te.device = d := by simpa using hdev
      have h1 := (h.1 te hte).1
      rw [hdev', hlk] at h1
      exact Option.noConfusion h1
    simp [hnil]
  · have hnd : ((s.pending.filter (fun te => te.device == d)).map TimerEntry.id).Nodup :=
      h.2.sublist ((List.filter_sublist _).map TimerEntry.id)
    have hall : ∀ x ∈ (s.pending.filter (fun te => te.device == d)).map TimerEntry.id,
        x = pid := by
      intro x hx
      obtain ⟨te, hte, hid⟩ := List.mem_map.mp hx
      have hmem := (List.mem_filter.mp hte).1
      have hdev : te.device = d := by
        have := (List.mem_filter.mp hte).2
        simpa using this
      have h1 := (h.1 te hmem).1
      rw [hdev, hlk] at h1
      rw [← hid]
      exact (Option.some.inj h1.symm)
    have := length_le_one_of_nodup_const _ pid hnd hall
    simpa using this

theorem create_leaves_single_pending (s : TMState) (d : String) (h : tmInv s) :
    (createTimer s d).pending.filter (fun te => te.device == d) =
      [{ id := s.nextId, device := d }] := by
  rcases hlk : optLookup (some s.registry) d with _ | pid
  · have hnil : s.pending.filter (fun te => te.device == d) = [] := by
      rw [List.filter_eq_nil_iff]
      intro te hte hdev
      have hdev' : te.device = d := by simpa using hdev
      have h1 := (h.1 te hte).1
      rw [hdev', hlk] at h1
      exact Option.noConfusion h1
    simp only [createTimer, hlk, List.filter_append, hnil, List.nil_append]
    simp
  · have hnil : (s.pending.filter (fun te => te.id ≠ pid)).filter
        (fun te => te.device == d) = [] := by
      rw [List.filter_eq_nil_iff]
      intro te hte hdev
      have hdev' : te.device = d := by simpa using hdev
      have hmem := (List.mem_filter.mp hte).1
      have hne : te.id ≠ pid := by
        have := (List.mem_filter.mp hte).2
        simpa using this
      have h1 := (h.1 te hmem).1
      rw [hdev', hlk] at h1
      exact hne (Option.some.inj h1).symm
    simp only [createTimer, hlk, List.filter_append, hnil, List.nil_append]
    simp

/-- C8: after any sequence of timer-manager events, at most one pending
timer exists per device name, and `create_timer` (which, under the
registry lock, cancels the previously registered timer for the device
before recording the new one) leaves exactly the newly created timer
pending for its device — so two rapid schedulings for the same device
leave only the later timer pending. -/
theorem timer_manager_at_most_one_pending (events : List TMEvent) (device : String) :
    ((tmRun events).pending.filter (fun te => te.device == device)).length ≤ 1 ∧
    (createTimer (tmRun events) device).pending.filter (fun te => te.device == device) =
      [{ id := (tmRun events).nextId, device := device }] :=
  ⟨pending_filter_le_one _ device (tmInv_run events),
   create_leaves_single_pending _ device (tmInv_run events)⟩

/-! ## Claim about the dispatcher loop's exception handling -/

/-- The availability-normalizer stage handler, as wired in
`get_refined_data_queue`. -/
def availHandler : Handler := fun m => (availabilityNormalizerProcess m).map some

/-- The state-normalizer stage handler. -/
def stateHandler : Handler := fun m => stateNormalizerProcess m

/-- `Processor.pass_through`. -/
def passThroughHandler : Handler := fun m => .ok (some m)

/-- The `normalizer` dispatcher of `get_refined_data_queue`: availability
and state normalizers as conditional handlers, pass-through as default. -/
def normalizerStageCfg : DispatcherCfg :=
  { conditional_handlers :=
      [(is_type_availability, availHandler), (is_type_state, stateHandler)],
    default_handler := passThroughHandler }

/-- A Z2M availability message with an unknown token: its handler raises
`DecodingException`. -/
def badAvailMsg : Message :=
  { protocol := .Z2M, device_name := "plug1", message_type := .AVAIL,
    raw_item := { data := .str "weird" } }

/-- A well-formed Z2M availability message. -/
def goodAvailMsg : Message :=
  { protocol := .Z2M, device_name := "plug2", message_type := .AVAIL,
    raw_item := { data := .str "online" } }

/-- A TASMOTA STATE message whose handler raises `TypeError` (the `**`
unpacking of a non-mapping payload). -/
def tasmotaBadStateMsg : Message :=
  { protocol := .TASMOTA, model := some .SHELLY_PLUGS, device_name := "shelly1",
    message_type := .STATE, raw_item := { data := .str "odd", tag := some "STATE" } }

/-- C2 counterexample: a `DecodingException` raised by the availability
normalizer is **not** caught by the dispatcher loop (whose `try` catches
only `TypeError`): the loop crashes on the first message and the second,
well-formed message is never consumed — although alone it would have been
refined and forwarded. -/
theorem dispatcher_decoding_exception_kills_loop :
    dispatchRun normalizerStageCfg [badAvailMsg, goodAvailMsg] =
      ([], some (.decodingError "Unknown availability value")) ∧
    (PyError.decodingError "Unknown availability value").isTypeError = false ∧
    dispatchRun normalizerStageCfg [goodAvailMsg] =
      ([{ goodAvailMsg with refined := some (.availability { is_online := true }) }],
       none) :=
  ⟨rfl, rfl, rfl⟩

/-- `dispatchStep` crashes only on non-`TypeError` exceptions. -/
theorem dispatchStep_crashed (cfg : DispatcherCfg) (msg : Message) (e : PyError)
    (h : dispatchStep cfg msg = .crashed e) : e.isTypeError = false := by
  rcases hc : chosenResult cfg msg with e' | v
  · by_cases ht : e'.isTypeError = true
    · simp [dispatchStep, hc, ht] at h
    · have hb : e'.isTypeError = false := Bool.eq_false_iff.mpr ht
      simp [dispatchStep, hc, hb] at h
      rw [← h]
      exact hb
  · rcases v with _ | m <;> simp [dispatchStep, hc] at h

/-- C2 amended: the dispatcher loop's `try` catches only `TypeError`.
Whenever the loop terminates with an uncaught handler exception, that
exception is not a `TypeError`; and whenever the chosen handler raises a
`TypeError`, the iteration is caught-and-logged and the loop continues
(forwarding nothing). Any other handler exception — `DecodingException`
included — terminates the consumer loop. -/
theorem dispatcher_only_typeerror_caught (cfg : DispatcherCfg)
    (msgs : List Message) (msg : Message) (e e' : PyError) :
    ((dispatchRun cfg msgs).2 = some e → e.isTypeError = false) ∧
    (chosenResult cfg msg = .error e' → e'.isTypeError = true →
      dispatchStep cfg msg = .continues []) := by
  constructor
  · induction msgs with
    | nil => intro h; simp [dispatchRun] at h
    | cons m rest ih =>
        intro h
        rcases hs : dispatchStep cfg m with out | e''
        · rw [dispatchRun, hs] at h
          exact ih h
        · rw [dispatchRun, hs] at h
          simp only at h
          have he : e'' = e := Option.some.inj h
          exact he ▸ dispatchStep_crashed cfg m e'' hs
  · intro hc ht
    simp [dispatchStep, hc, ht]

/-- Witness for `dispatcher_only_typeerror_caught`: the crash exception
of the counterexample run is not a `TypeError`, and a handler `TypeError`
(the TASMOTA `**`-unpacking case) lets the loop continue. -/
theorem dispatcher_only_typeerror_caught_witness :
    (PyError.decodingError "Unknown availability value").isTypeError = false ∧
    dispatchStep normalizerStageCfg tasmotaBadStateMsg = .continues [] :=
  ⟨(dispatcher_only_typeerror_caught normalizerStageCfg [badAvailMsg]
      tasmotaBadStateMsg (.decodingError "Unknown availability value")
      (.typeError "argument after ** must be a mapping")).1 rfl,
   (dispatcher_only_typeerror_caught normalizerStageCfg [badAvailMsg]
      tasmotaBadStateMsg (.decodingError "Unknown availability value")
      (.typeError "argument after ** must be a mapping")).2 rfl rfl⟩

/-! ## Claim about `DeviceAccessor` deferred/pulsed power changes -/

/-- C7: `_do_switch_power_change` with a non-zero countdown only schedules
a re-invocation of `switch_power_change` itself (with `countdown = 0`)
after `countdown` seconds and publishes nothing; with countdown zero it
immediately publishes the encoded switch state and, when turning on with
`on_time > 0`, additionally schedules the deferred turn-off. The pulsed
turn-on `switch_power_change("plug1", Z2M, SN_SMART_PLUG, power_on=True,
countdown=0, on_time=2)` publishes `{"state": "ON"}` to
`zigbee2mqtt/plug1/set` at once and schedules a turn-off after 2 seconds
whose firing publishes `{"state": "OFF"}` there — exactly two publishes in
total. -/
theorem switch_power_change_timing (device : String) (p : Protocol)
    (m : Model) (pw : Bool) (cd ot ft : ℚ) :
    (cd ≠ 0 →
      doSwitchPowerChange device p m pw cd ot ft =
        .ok [.schedule device cd (.switchPowerChangeTask device p m pw 0 ot ft)]) ∧
    (pw = true → 0 < ot → cd = 0 →
      doSwitchPowerChange device p m pw cd ot ft =
        (doSwitchPowerEffects device p m true).map
          (fun effs => effs ++ [.schedule device ot (.doSwitchPower device p m false)])) ∧
    switchPowerChange "plug1" .Z2M .SN_SMART_PLUG true 0 2 0 =
      .ok [.publish "zigbee2mqtt/plug1/set" (.json [("state", .str "ON")]) 1 false,
           .schedule "plug1" 2 (.doSwitchPower "plug1" .Z2M .SN_SMART_PLUG false)] ∧
    runTimerTask (.doSwitchPower "plug1" .Z2M .SN_SMART_PLUG false) =
      .ok [.publish "zigbee2mqtt/plug1/set" (.json [("state", .str "OFF")]) 1 false] ∧
    countPublishes
        [.publish "zigbee2mqtt/plug1/set" (.json [("state", .str "ON")]) 1 false,
         .schedule "plug1" 2 (.doSwitchPower "plug1" .Z2M .SN_SMART_PLUG false)] +
      countPublishes
        [.publish "zigbee2mqtt/plug1/set" (.json [("state", .str "OFF")]) 1 false] = 2 := by
  refine ⟨?_, ?_, rfl, rfl, rfl⟩
  · intro hcd
    simp [doSwitchPowerChange, hcd]
  · intro hpw hot hcd
    subst hpw hcd
    rcases hE : doSwitchPowerEffects device p m true with e | effs <;>
      simp [doSwitchPowerChange, hE, hot, Bind.bind, Except.bind, Except.map]

/-- Witness for `switch_power_change_timing`: the deferred branch at
`countdown = 5` and the immediate pulsed branch at `on_time = 2`. -/
theorem switch_power_change_timing_witness :
    doSwitchPowerChange "plug1" .Z2M .SN_SMART_PLUG true 5 2 0 =
      .ok [.schedule "plug1" 5
            (.switchPowerChangeTask "plug1" .Z2M .SN_SMART_PLUG true 0 2 0)] ∧
    doSwitchPowerChange "plug1" .Z2M .SN_SMART_PLUG true 0 2 0 =
      (doSwitchPowerEffects "plug1" .Z2M .SN_SMART_PLUG true).map
        (fun effs => effs ++
          [.schedule "plug1" 2 (.doSwitchPower "plug1" .Z2M .SN_SMART_PLUG false)]) :=
  ⟨(switch_power_change_timing "plug1" .Z2M .SN_SMART_PLUG true 5 2 0).1 (by norm_num),
   ((switch_power_change_timing "plug1" .Z2M .SN_SMART_PLUG true 0 2 0).2).1
      rfl (by norm_num) rfl⟩

/-! ## Claim about `Discoverer._discover_z2m` -/

/-- A Z2M discovery entry is well-typed for registration: a string
`friendly_name`, an absent/null/string `ieee_address`, and an absent or
dict `definition`. -/
def entryWF (e : Dict) : Prop :=
  (∃ s, Dict.get e "friendly_name" = some (.str s)) ∧
  (Dict.get e "ieee_address" = none ∨ Dict.get e "ieee_address" = some .null ∨
    ∃ s, Dict.get e "ieee_address" = some (.str s)) ∧
  (Dict.get e "definition" = none ∨ ∃ dd, Dict.get e "definition" = some (.obj dd))

/-- The device the claim expects for one included Z2M discovery entry:
name from `friendly_name`, protocol `Z2M`, address from `ieee_address`,
model resolved from `definition.model`. -/
def mkZ2mDevice (e : Dict) : Device :=
  { name := match Dict.get e "friendly_name" with
      | some (.str s) => s
      | _ => ""
    protocol := .Z2M
    address := match Dict.get e "ieee_address" with
      | some (.str s) => some s
      | _ => none
    model := some (Model.fromStr (match Dict.get e "definition" with
      | some (.obj dd) => Dict.get dd "model"
      | _ => none)) }

theorem entryDevice_wf (e : Dict) (h : entryWF e) :
    entryDevice e = .ok (mkZ2mDevice e) ∧ entryName e = .ok (mkZ2mDevice e).name := by
  obtain ⟨⟨s, hn⟩, haddr, hdef⟩ := h
  rcases haddr with ha | ha | ⟨a, ha⟩ <;>
    rcases hdef with hd | ⟨dd, hd⟩ <;>
      simp [entryDevice, entryName, mkZ2mDevice, definitionModel, hn, ha, hd,
        Bind.bind, Except.bind]

theorem exceptMapM_ok_of_all {α β : Type} (f : α → Except PyError β) (g : α → β)
    (l : List α) (h : ∀ a ∈ l, f a = .ok (g a)) : exceptMapM f l = .ok (l.map g) := by
  induction l with
  | nil => rfl
  | cons a t ih =>
      have ha := h a (List.mem_cons_self a t)
      have ht := ih (fun x hx => h x (List.mem_cons_of_mem a hx))
      simp [exceptMapM, ha, ht, Bind.bind, Except.bind]

/-- C5: for a Z2M discovery message over a list of well-typed entries,
`Discoverer.process` merges into the directory exactly the devices built
from the entries whose `type` is `EndDevice` or `Router` (any other type,
e.g. `Coordinator`, is excluded) — each with name `friendly_name`,
protocol `Z2M`, address `ieee_address` and model resolved from
`definition.model` — and refines the message into a `Registry` whose
`device_names` are exactly the friendly names of the included entries. -/
theorem discoverer_z2m_registers (dir : Directory) (msg : Message)
    (entries : List Dict)
    (hty : msg.message_type = MessageType.DISCO)
    (hproto : msg.protocol = Protocol.Z2M)
    (hdata : msg.raw_item.data = .listDict entries)
    (hwf : ∀ e ∈ entries.filter isIncludedType, entryWF e) :
    discovererProcess dir msg =
      .ok (updateDevices dir ((entries.filter isIncludedType).map mkZ2mDevice),
           { msg with model := some Model.NONE,
                      refined := some (.registry
                        { device_names :=
                            (entries.filter isIncludedType).map
                              (fun e => (mkZ2mDevice e).name) }) }) := by
  have hdevs : exceptMapM entryDevice (entries.filter isIncludedType) =
      .ok ((entries.filter isIncludedType).map mkZ2mDevice) :=
    exceptMapM_ok_of_all _ _ _ (fun e he => (entryDevice_wf e (hwf e he)).1)
  have hnames : exceptMapM entryName (entries.filter isIncludedType) =
      .ok ((entries.filter isIncludedType).map (fun e => (mkZ2mDevice e).name)) :=
    exceptMapM_ok_of_all _ _ _ (fun e he => (entryDevice_wf e (hwf e he)).2)
  simp [discovererProcess, hty, hproto, discoverZ2m, hdata, hdevs, hnames,
    Bind.bind, Except.bind]

/-- The S3 scenario discovery payload: one `EndDevice` plug and the
coordinator. -/
def discoEntryPlug : Dict :=
  [("friendly_name", .str "plug1"), ("ieee_address", .str "0x1"),
   ("type", .str "EndDevice"), ("definition", .obj [("model", .str "S26R2ZB")])]

def discoEntryCoord : Dict :=
  [("friendly_name", .str "coord"), ("type", .str "Coordinator")]

def discoEntries : List Dict := [discoEntryPlug, discoEntryCoord]

def discoMsg : Message :=
  { protocol := .Z2M, device_name := "bridge", message_type := .DISCO,
    raw_item := { data := .listDict discoEntries } }

/-- Witness for `discoverer_z2m_registers`: the S3 discovery registers
`plug1` (model `SN_SMART_PLUG` from tag `S26R2ZB`), skips the
coordinator, and refines to `Registry{device_names=["plug1"]}`. -/
theorem discoverer_z2m_registers_witness :
    discovererProcess [] discoMsg =
      .ok ([("plug1", { name := "plug1", protocol := .Z2M, address := some "0x1",
                        model := some .SN_SMART_PLUG })],
           { discoMsg with model := some Model.NONE,
                           refined := some (.registry { device_names := ["plug1"] }) }) := by
  have hwf : ∀ e ∈ discoEntries.filter isIncludedType, entryWF e := by
    have hfil : discoEntries.filter isIncludedType = [discoEntryPlug] := rfl
    rw [hfil]
    intro e he
    rw [List.mem_singleton] at he
    subst he
    exact ⟨⟨"plug1", rfl⟩, Or.inr (Or.inr ⟨"0x1", rfl⟩),
           Or.inr ⟨[("model", .str "S26R2ZB")], rfl⟩⟩
  rw [discoverer_z2m_registers [] discoMsg discoEntries rfl rfl rfl hwf]
  rfl

/-! ## Claim about `Encoder.transform` (refinement against the spec) -/

/-- Replace a field key by its alias when one is configured. -/
def aliasApply (e : Encoder) (k : String) : String :=
  match optLookup e.field_aliases k with
  | some a => a
  | none => k

/-- Pass a field value through its converter when one is configured. -/
def convApply (e : Encoder) (k : String) (v : JsonVal) : JsonVal :=
  match optLookup e.field_converters k with
  | some f => f v
  | none => v

/-- The spec's description of `Encoder.transform` (spec §4.8): given the
dump of the non-null fields, output exactly those fields, each value
passed through its converter (if any) and each key replaced by its alias
(if any). -/
def specTransform (e : Encoder) (dump : List (String × JsonVal)) :
    List (String × JsonVal) :=
  dump.map (fun kv => (aliasApply e kv.1, convApply e kv.1 kv.2))

theorem transformStep_eq (e : Encoder) (acc : List (String × JsonVal))
    (kv : String × JsonVal) :
    transformStep e acc kv =
      dictInsertVal acc (aliasApply e kv.1) (convApply e kv.1 kv.2) := by
  unfold transformStep aliasApply convApply
  rcases optLookup e.field_aliases kv.1 with _ | a <;>
    rcases optLookup e.field_converters kv.1 with _ | f <;> rfl

theorem dictInsertVal_fresh (d : List (String × JsonVal)) (k : String) (v : JsonVal)
    (h : k ∉ d.map Prod.fst) : dictInsertVal d k v = d ++ [(k, v)] := by
  have hany : d.any (fun kv => kv.1 == k) = false := by
    rw [List.any_eq_false]
    intro kv hkv
    simp only [beq_iff_eq]
    intro he
    exact h (List.mem_map.mpr ⟨kv, hkv, he⟩)
  simp [dictInsertVal, hany]

theorem foldl_transformStep (e : Encoder) (l : List (String × JsonVal)) :
    ∀ acc : List (String × JsonVal),
      (acc.map Prod.fst ++ l.map (fun kv => aliasApply e kv.1)).Nodup →
      l.foldl (transformStep e) acc = acc ++ specTransform e l := by
  induction l with
  | nil => intro acc _; simp [specTransform]
  | cons kv t ih =>
      intro acc h
      have hfresh : aliasApply e kv.1 ∉ acc.map Prod.fst := by
        intro hmem
        exact (List.nodup_append.mp h).2.2 hmem (List.mem_cons_self _ _)
      rw [List.foldl_cons, transformStep_eq, dictInsertVal_fresh _ _ _ hfresh]
      have h' : ((acc ++ [(aliasApply e kv.1, convApply e kv.1 kv.2)]).map Prod.fst ++
          t.map (fun kv => aliasApply e kv.1)).Nodup := by
        simpa [List.map_append, List.append_assoc] using h
      rw [ih _ h']
      simp [specTransform]

theorem dropNone_keys_sublist (l : List (String × Option JsonVal)) :
    List.Sublist ((dropNone l).map Prod.fst) (l.map Prod.fst) := by
  induction l with
  | nil => simp [dropNone]
  | cons kv t ih =>
      rcases kv with ⟨k, v⟩
      rcases v with _ | v
      · simp only [dropNone, List.filterMap_cons, Option.map_none', List.map_cons]
        exact ih.cons k
      · simp only [dropNone, List.filterMap_cons, Option.map_some', List.map_cons]
        exact ih.cons₂ k

theorem transform_eq_spec (e : Encoder) (state : DeviceState)
    (dump : List (String × JsonVal))
    (hdump : state.modelDump = .ok dump)
    (hnd : (dump.map (fun kv => aliasApply e kv.1)).Nodup) :
    e.transform state = .ok (specTransform e dump) := by
  have := foldl_transformStep e dump [] (by simpa using hnd)
  simp [Encoder.transform, hdump, Bind.bind, Except.bind, this]

theorem transform_dropNone_spec (e : Encoder) (state : DeviceState)
    (bindings : List (String × Option JsonVal)) (K : List String)
    (hdump : state.modelDump = .ok (dropNone bindings))
    (hK : bindings.map Prod.fst = K)
    (hnd : (K.map (aliasApply e)).Nodup) :
    e.transform state = .ok (specTransform e (dropNone bindings)) := by
  apply transform_eq_spec e state _ hdump
  have hcomp : (dropNone bindings).map (fun kv => aliasApply e kv.1) =
      ((dropNone bindings).map Prod.fst).map (aliasApply e) := by
    simp [List.map_map, Function.comp]
  rw [hcomp]
  exact hnd.sublist ((hK ▸ dropNone_keys_sublist bindings).map (aliasApply e))

/-- C6: for every registered model, `Encoder.transform` on any canonical
device state (whose dump is defined) outputs exactly the non-null fields
of the state, each value passed through its converter (none are
registered) and each key replaced by its alias; in particular
`encode(SN_SMART_PLUG, SWITCH_ON) = {"state": "ON"}` and
`encode(SHELLY_PLUGS, SWITCH_ON) = {"Power": "ON"}`. -/
theorem encoder_transform_exact (model : Model) (e : Encoder)
    (state : DeviceState) (dump : List (String × JsonVal))
    (henc : getEncoder model = some e)
    (hdump : state.modelDump = .ok dump) :
    e.transform state = .ok (specTransform e dump) ∧
    encode .SN_SMART_PLUG (.switch SWITCH_ON) = .ok [("state", .str "ON")] ∧
    encode .SHELLY_PLUGS (.switch SWITCH_ON) = .ok [("Power", .str "ON")] := by
  refine ⟨?_, rfl, rfl⟩
  cases model <;> simp only [getEncoder, Option.some.injEq, reduceCtorEq] at henc <;>
    subst henc <;> cases state <;> rename_i s <;>
    first
    | (obtain rfl := Except.ok.inj hdump
       first
       | exact transform_dropNone_spec _ _ _
           ["last_seen", "humidity", "temperature"] rfl rfl (by decide)
       | exact transform_dropNone_spec _ _ _
           ["last_seen", "power_on_behavior", "power"] rfl rfl (by decide)
       | exact transform_dropNone_spec _ _ _
           ["last_seen", "power1", "power2"] rfl rfl (by decide)
       | exact transform_dropNone_spec _ _ _
           ["last_seen", "occupancy", "tamper"] rfl rfl (by decide)
       | exact transform_dropNone_spec _ _ _
           ["last_seen", "action"] rfl rfl (by decide)
       | exact transform_dropNone_spec _ _ _
           ["last_seen", "away_preset_temperature", "battery", "calibrated",
            "child_lock", "device_temperature", "external_temperature_input",
            "internal_heating_setpoint", "linkquality", "local_temperature",
            "occupied_heating_setpoint", "power_outage_count", "preset",
            "schedule", "schedule_settings", "sensor", "setup", "system_mode",
            "update", "valve_alarm", "valve_detection", "voltage",
            "window_detection", "window_open"] rfl rfl (by decide)
       | exact transform_dropNone_spec _ _ _
           ["last_seen", "alarm", "battery_low", "duration", "melody", "volume"]
           rfl rfl (by decide))
    | (rcases hr : s.Range with _ | r
       · simp only [DeviceState.modelDump, hr] at hdump
         exact Except.noConfusion hdump
       · simp only [DeviceState.modelDump, hr, Except.ok.injEq] at hdump
         subst hdump
         exact transform_dropNone_spec _ _ _
           ["last_seen", "Range", "voltage"]
           (by simp [DeviceState.modelDump, hr]) rfl (by decide))

/-- Witness for `encoder_transform_exact` at `SN_SMART_PLUG` and
`SWITCH_ON`: the transform equals the spec-side map of the dump. -/
theorem encoder_transform_exact_witness :
    Encoder.transform
        { settable_fields := ["state"], gettable_fields := ["state"],
          field_aliases := some [("power", "state")] }
        (.switch SWITCH_ON) =
      .ok (specTransform
        { settable_fields := ["state"], gettable_fields := ["state"],
          field_aliases := some [("power", "state")] }
        [("power", .str "ON")]) :=
  (encoder_transform_exact .SN_SMART_PLUG _ (.switch SWITCH_ON)
    [("power", .str "ON")] rfl rfl).1

/-! ## Claim about the refined-queue invariant of `get_refined_data_queue` -/

/-- A raw TASMOTA telemetry message on sub-topic `SENSOR`. -/
def sensorMsg : Message :=
  { protocol := .TASMOTA, device_name := "shelly1", message_type := .STATE,
    raw_item := { data := .dict [("ANALOG", .obj [("A0", .num 512)])],
                  tag := some "SENSOR" } }

/-- C1 counterexample: a TASMOTA STATE message with `raw_item.tag =
"SENSOR"` travels the whole pipeline and reaches the refined queue with
`refined` still null — `StateNormalizer.process` forwards it unchanged. -/
theorem pipeline_sensor_forwarded_unrefined :
    pipeline [] sensorMsg =
      .ok ([], some { sensorMsg with model := some Model.UNKNOWN }) ∧
    ({ sensorMsg with model := some Model.UNKNOWN } : Message).refined = none ∧
    sensorMsg.message_type = MessageType.STATE ∧
    sensorMsg.raw_item.tag = some "SENSOR" :=
  ⟨rfl, rfl, rfl, rfl⟩

theorem availNorm_refined (m x : Message)
    (h : availabilityNormalizerProcess m = .ok x) :
    ∃ b, x.refined = some (.availability { is_online := b }) := by
  unfold availabilityNormalizerProcess at h
  by_cases hty : m.message_type ≠ MessageType.AVAIL
  · rw [if_pos hty] at h
    exact Except.noConfusion h
  · rw [if_neg hty] at h
    rcases hd : availDecodeValue m with e | b <;> rw [hd] at h <;>
      simp [Except.map] at h
    exact ⟨b, by rw [← h]⟩

theorem stateNorm_refined_none (m res : Message)
    (h : stateNormalizerProcess m = .ok (some res))
    (hty : m.message_type = MessageType.STATE) (hrn : res.refined = none) :
    res = m ∧ m.protocol = Protocol.TASMOTA ∧ m.raw_item.tag = some "SENSOR" := by
  unfold stateNormalizerProcess at h
  rw [if_neg (by simp [hty])] at h
  by_cases hz : m.protocol = Protocol.Z2M
  · rw [if_pos hz] at h
    exfalso
    rcases ht : refineTarget m.model with _ | parse <;> rw [ht] at h <;>
      dsimp only at h
    · simp at h
    · rcases hdd : m.raw_item.data with d | s | l <;> rw [hdd] at h <;>
        dsimp only at h
      · rcases hp : parse d with e | st <;> rw [hp] at h <;>
          (try dsimp only at h)
        · cases e <;> simp at h
        · simp at h
          rw [← h] at hrn
          simp at hrn
      · simp at h
      · simp at h
  · rw [if_neg hz] at h
    by_cases hT : m.protocol = Protocol.TASMOTA
    · rw [if_pos hT] at h
      by_cases htag : m.raw_item.tag = some "STATE"
      · exfalso
        rw [if_pos htag] at h
        rcases ht : refineTarget m.model with _ | parse <;> rw [ht] at h <;>
          dsimp only at h
        · simp at h
        · rcases hdd : m.raw_item.data with d | s | l <;> rw [hdd] at h <;>
            dsimp only at h
          · rcases hp : parse d with e | st <;> rw [hp] at h <;>
              (try dsimp only at h)
            · simp at h
            · simp at h
              rw [← h] at hrn
              simp at hrn
          · simp at h
          · simp at h
      · rw [if_neg htag] at h
        by_cases hsens : m.raw_item.tag = some "SENSOR"
        · rw [if_pos hsens] at h
          rcases hdd : m.raw_item.data with d | s | l <;> rw [hdd] at h <;>
            dsimp only at h
          · simp at h
            exact ⟨h.symm, hT, hsens⟩
          · simp at h
          · simp at h
        · rw [if_neg hsens] at h
          simp at h
    · rw [if_neg hT] at h
      simp at h

theorem stage2_of_disco (dir : Directory) (m1 m2 : Message)
    (hty : m1.message_type = MessageType.DISCO)
    (h : stage2 dir m1 = .ok (some m2)) :
    m2 = m1 ∧ ∃ r, m1.refined = some (.registry r) := by
  unfold stage2 at h
  rw [if_neg (by simp [is_type_discovery, hty])] at h
  unfold getDeviceStateHandler at h
  rcases hr : m1.refined with _ | rf <;> rw [hr] at h
  · exact Except.noConfusion h
  · rcases rf with st | av | reg
    · exact Except.noConfusion h
    · exact Except.noConfusion h
    · simp only [Bind.bind, Except.bind] at h
      split at h
      · exact Except.noConfusion h
      · simp at h
        exact ⟨h.symm, reg, rfl⟩

theorem stage2_of_nondisco (dir : Directory) (m1 m2 : Message)
    (hty : m1.message_type ≠ MessageType.DISCO)
    (h : stage2 dir m1 = .ok (some m2)) :
    m2 = { m1 with model := match getDevice dir m1.device_name with
                            | some d => d.model
                            | none => some Model.UNKNOWN } := by
  unfold stage2 at h
  rw [if_pos (by simp [is_type_discovery, hty])] at h
  unfold modelResolverProcess at h
  rw [if_neg hty] at h
  simp [Except.map] at h
  exact h.symm

theorem stage3_refined_none (m res : Message)
    (h : stage3 m = .ok (some res)) (hrn : res.refined = none) :
    res = m ∧ (m.message_type = MessageType.DISCO ∨
      (m.protocol = Protocol.TASMOTA ∧ m.message_type = MessageType.STATE ∧
       m.raw_item.tag = some "SENSOR")) := by
  unfold stage3 at h
  by_cases hav : m.message_type = MessageType.AVAIL
  · rw [if_pos (by simp [is_type_availability, hav])] at h
    exfalso
    rcases hA : availabilityNormalizerProcess m with e | x <;> rw [hA] at h <;>
      simp [Except.map] at h
    obtain ⟨b, hb⟩ := availNorm_refined m x hA
    rw [h] at hb
    rw [hrn] at hb
    exact Option.noConfusion hb
  · rw [if_neg (by simp [is_type_availability, hav])] at h
    by_cases hst : m.message_type = MessageType.STATE
    · rw [if_pos (by simp [is_type_state, hst])] at h
      have hres := stateNorm_refined_none m res h hst hrn
      exact ⟨hres.1, Or.inr ⟨hres.2.1, hst, hres.2.2⟩⟩
    · rw [if_neg (by simp [is_type_state, hst])] at h
      simp at h
      refine ⟨h.symm, Or.inl ?_⟩
      cases hmt : m.message_type
      · rfl
      · exact absurd hmt hav
      · exact absurd hmt hst

/-- C1 amended: every message that reaches the refined queue has a
message type among DISCO, AVAIL, STATE, and its `refined` field is
non-null **except** for TASMOTA STATE messages whose `raw_item.tag` is
`"SENSOR"`, which `StateNormalizer.process` forwards unchanged with
`refined` still null. -/
theorem pipeline_refined_fields (dir : Directory) (msg : Message)
    (dir' : Directory) (res : Message)
    (h : pipeline dir msg = .ok (dir', some res)) :
    (res.message_type = MessageType.DISCO ∨ res.message_type = MessageType.AVAIL ∨
      res.message_type = MessageType.STATE) ∧
    (res.refined = none →
      res.protocol = Protocol.TASMOTA ∧ res.message_type = MessageType.STATE ∧
      res.raw_item.tag = some "SENSOR") := by
  constructor
  · cases res.message_type <;> simp
  · intro hrn
    unfold pipeline at h
    rcases h1 : stage1 dir msg with e | ⟨dir1, m1opt⟩ <;> rw [h1] at h <;>
      simp only [Bind.bind, Except.bind] at h
    · exact Except.noConfusion h
    rcases m1opt with _ | m1 <;> dsimp only at h
    · simp at h
    rcases h2 : stage2 dir1 m1 with e | m2opt <;> rw [h2] at h <;> dsimp only at h
    · exact Except.noConfusion h
    rcases m2opt with _ | m2 <;> dsimp only at h
    · simp at h
    rcases h3 : stage3 m2 with e | m3opt <;> rw [h3] at h <;> dsimp only at h
    · exact Except.noConfusion h
    simp at h
    have hm3 : m3opt = some res := h.2
    rw [hm3] at h3
    obtain ⟨hres_eq, hcase⟩ := stage3_refined_none m2 res h3 hrn
    subst hres_eq
    rcases hcase with hdisco | hsensor
    · exfalso
      by_cases h1ty : m1.message_type = MessageType.DISCO
      · obtain ⟨hm2, r, hrref⟩ := stage2_of_disco dir1 m1 res h1ty h2
        rw [hm2, hrref] at hrn
        exact Option.noConfusion hrn
      · have hm2 := stage2_of_nondisco dir1 m1 res h1ty h2
        rw [hm2] at hdisco
        exact absurd hdisco h1ty
    · exact hsensor

/-- Witness for `pipeline_refined_fields` at the forwarded SENSOR
message. -/
theorem pipeline_refined_fields_witness :
    ({ sensorMsg with model := some Model.UNKNOWN } : Message).protocol =
        Protocol.TASMOTA ∧
    ({ sensorMsg with model := some Model.UNKNOWN } : Message).message_type =
        MessageType.STATE ∧
    ({ sensorMsg with model := some Model.UNKNOWN } : Message).raw_item.tag =
        some "SENSOR" :=
  (pipeline_refined_fields [] sensorMsg []
    { sensorMsg with model := some Model.UNKNOWN } rfl).2 rfl

end I2M
